import Mathlib

set_option maxRecDepth 100000

/-!
Verification of the data-integration agent's mapping pipeline
(`src/data_integration_agent/tools.py`).

The Python source is shallowly embedded below: pure helpers become Lean
functions, the session state bag becomes an explicit `SessionState` record
threaded through each tool, confidences become exact rationals, and the
fallible tools return `Except` values mirroring the error dictionaries the
Python code returns.  Functions imported from `guardrails.py` (which is not
part of the sources under verification) are modelled from the specification
and marked as such in their doc comments.
-/

/-! ## String utilities mirroring the Python string operations used -/

/-- Embeds Python's substring test: `isSub needle hay = true` iff `needle`
occurs contiguously in `hay` (Python `needle in hay`). -/
def isSub (needle : List Char) : List Char → Bool
  | [] => needle.isEmpty
  | c :: rest => needle.isPrefixOf (c :: rest) || isSub needle rest

/-- String-level wrapper for `isSub`: Python `a in b`. -/
def strIn (a b : String) : Bool :=
  isSub a.data b.data

/-- Fuel-indexed worker for `replaceOcc`; structural recursion on `fuel` so
that the kernel can evaluate it.  Each step consumes at least one character
of `s`, so with `fuel = s.length` the fuel never runs out and the `0` branch
is dead. -/
def replaceOccAux (rep pat : List Char) : Nat → List Char → List Char
  | 0, s => s
  | _ + 1, [] => []
  | fuel + 1, c :: rest =>
    if !pat.isEmpty && pat.isPrefixOf (c :: rest) then
      rep ++ replaceOccAux rep pat fuel (rest.drop (pat.length - 1))
    else
      c :: replaceOccAux rep pat fuel rest

/-- Embeds Python's `str.replace(pat, rep)` for a non-empty `pat`: a single
left-to-right pass replacing every non-overlapping occurrence of `pat`. -/
def replaceOcc (s pat rep : List Char) : List Char :=
  replaceOccAux rep pat s.length s

/-- String-level wrapper for `replaceOcc`: Python `s.replace(pat, rep)`. -/
def strReplace (s pat rep : String) : String :=
  ⟨replaceOcc s.data pat.data rep.data⟩

/-- Python `s.replace(pat, "")`, used for the prefix-token removal in
`_similar_names`. -/
def strRemove (s pat : String) : String :=
  strReplace s pat ""

/-- Embeds Python's `s.lower()` (char-by-char lowercasing; the column and
table names involved are ASCII, where this matches Python). -/
def strLower (s : String) : String :=
  ⟨s.data.map Char.toLower⟩

/-- Embeds Python's `s.endswith(suf)`. -/
def strEndsWith (s suf : String) : Bool :=
  suf.data.isSuffixOf s.data

/-- Embeds Python's `s[:-k]` for `k = suf.length` (used as `n1[:-len(suffix)]`). -/
def dropTail (s : String) (k : Nat) : String :=
  ⟨s.data.take (s.data.length - k)⟩

/-! ## Data model (mirrors the dictionaries built in `tools.py`) -/

/-- One entry of a table's `columns` list as built by `get_source_schema` /
`get_target_schema` (name, type, nullable, position). -/
structure Column where
  name : String
  type : String
  nullable : Bool
  position : Nat
deriving DecidableEq, Repr

/-- One entry of a snapshot's `tables` list. -/
structure TableSchema where
  table_name : String
  columns : List Column
deriving DecidableEq, Repr

/-- The `schema_info` dictionary stored under `source_schema` /
`target_schema` (`table_count` is derivable and omitted). -/
structure SchemaInfo where
  dataset_id : String
  project_id : String
  tables : List TableSchema
deriving DecidableEq, Repr

/-- One mapping dictionary from `suggest_column_mappings` (lines 303-311). -/
structure Mapping where
  target_column : String
  target_type : String
  source_column : Option String
  source_type : Option String
  confidence : ℚ
  transformation : Option String
  status : String
deriving DecidableEq, Repr

/-- The result dictionary of `suggest_column_mappings` (lines 317-327).
The guardrail annotation fields added afterwards (`explanations`,
`confidence_analysis`, `recommendation`, `risk_assessment`) only feed the
human-review payload and the audit log and are omitted here. -/
structure SuggestResult where
  source_table : String
  target_table : String
  mappings : List Mapping
  mapping_count : Nat
  unmapped_count : Nat
  average_confidence : ℚ
deriving DecidableEq, Repr

/-- The result dictionary of `generate_transformation_sql` (lines 649-662);
the `sql_validation`, `risk_assessment` and `generated_at` fields are
presentation-only and omitted. -/
structure GeneratedSql where
  source_table : String
  target_table : String
  insert_sql : String
  merge_sql : String
  column_count : Nat
  mapped_count : Nat
deriving DecidableEq, Repr

/-- An audit record accepted by `log_audit_event`; the structured payload is
not read back by any tool and is omitted. -/
structure AuditEvent where
  category : String
  event_type : String
  risk_level : String
deriving DecidableEq, Repr

/-- An error dictionary as returned by the tools: an `error` message plus the
optional `source_table` / `target_table` context keys that some of the error
dictionaries carry. -/
structure ErrDict where
  error : String
  source_table : Option String
  target_table : Option String
deriving DecidableEq, Repr

/-- The session state bag (`tool_context.state`) restricted to the keys the
pipeline reads and writes.  The Python dicts keyed by mapping key are modelled
as association lists with Python-dict update semantics. -/
structure SessionState where
  source_schema : Option SchemaInfo
  target_schema : Option SchemaInfo
  suggested_mappings : List (String × SuggestResult)
  approved_mappings : List (String × SuggestResult)
  generated_sql : List (String × GeneratedSql)
  audit_log : List AuditEvent
deriving DecidableEq, Repr

/-- The three environment values read by `generate_transformation_sql`
(`BQ_PROJECT_ID`, `BQ_DATASET_SOURCE`, `BQ_DATASET_TARGET`). -/
structure Env where
  project_id : String
  source_dataset : String
  target_dataset : String
deriving DecidableEq, Repr

/-- Python-dict insertion on an association list: overwrite the value in
place when the key exists, append otherwise. -/
def dictInsert {α : Type} (l : List (String × α)) (k : String) (v : α) :
    List (String × α) :=
  if l.any (fun p => p.1 == k) then
    l.map (fun p => if p.1 == k then (k, v) else p)
  else
    l ++ [(k, v)]

/-- Python-dict lookup on an association list: the value of the first pair
with the given key. -/
def dictLookup {α : Type} : List (String × α) → String → Option α
  | [], _ => none
  | p :: rest, k => if p.1 == k then some p.2 else dictLookup rest k

/-- Python truthiness of an optional string (`None` and `""` are falsy). -/
def strOptTruthy : Option String → Bool
  | none => false
  | some s => !s.isEmpty

/-! ## Mapping inference (`suggest_column_mappings` and `_similar_names`) -/

/-- The first normalization stage of `_similar_names` (lines 403-408):
lowercase, then `str.replace(p, "")` for each prefix token in order. -/
def stripTokens (n : String) : String :=
  ["src_", "tgt_", "dim_", "fact_", "stg_"].foldl strRemove (strLower n)

/-- The second normalization stage of `_similar_names` (lines 410-413): for
each suffix in list order, strip it from both names when both currently end
with it. -/
def stripShared (p : String × String) : String × String :=
  ["_id", "_key", "_code", "_date", "_amt", "_amount"].foldl
    (fun (pr : String × String) suf =>
      if strEndsWith pr.1 suf && strEndsWith pr.2 suf then
        (dropTail pr.1 suf.length, dropTail pr.2 suf.length)
      else pr)
    p

/-- Embeds `_similar_names` (tools.py lines 397-415): normalize both names
through the two stages, then test equality or containment in either
direction. -/
def similar_names (name1 name2 : String) : Bool :=
  let q := stripShared (stripTokens name1, stripTokens name2)
  q.1 == q.2 || strIn q.1 q.2 || strIn q.2 q.1

/-- Embeds the rule cascade of lines 281-291: exact case-insensitive equality
0.95, else substring containment either direction 0.75, else `_similar_names`
0.60, else not a candidate (`continue`). -/
def ruleConfidence (source_name target_name : String) : Option ℚ :=
  if strLower source_name == strLower target_name then
    some (95/100)
  else if strIn (strLower source_name) (strLower target_name) ||
      strIn (strLower target_name) (strLower source_name) then
    some (75/100)
  else if similar_names source_name target_name then
    some (60/100)
  else
    none

/-- The cast template string `CAST({source} AS <type>)` of line 296. -/
def castTemplate (t : String) : String :=
  "CAST(\x7bsource\x7d AS " ++ t ++ ")"

/-- Candidate confidence and transform for one source/target column pair
(lines 277-296): the cascade value, minus 0.1 with a cast template attached
when the declared types differ. -/
def candScore (sc tc : Column) : Option (ℚ × Option String) :=
  (ruleConfidence sc.name tc.name).map fun c =>
    if sc.type != tc.type then (c - 1/10, some (castTemplate tc.type)) else (c, none)

/-- One iteration of the inner `for source_name, source_col` loop
(lines 277-301): the accumulator `(best_match, best_confidence,
transformation)` is replaced when the candidate confidence is strictly
greater. -/
def chooseStep (tc : Column) (acc : Option String × ℚ × Option String)
    (sc : Column) : Option String × ℚ × Option String :=
  match candScore sc tc with
  | none => acc
  | some (c, t) => if acc.2.1 < c then (some sc.name, c, t) else acc

/-- The full inner loop: fold `chooseStep` over the source columns starting
from `(None, 0.0, None)`. -/
def bestMatch (source_cols : List Column) (tc : Column) :
    Option String × ℚ × Option String :=
  source_cols.foldl (chooseStep tc) (none, 0, none)

/-- Models Python's `round(x, 2)` on exact rationals.  Every per-candidate
confidence is a multiple of 1/20, on which two-decimal rounding is the
identity; for averages the embedding rounds exact halves up, where Python's
binary floats may fall on either side - no claim depends on a tie. -/
def round2 (q : ℚ) : ℚ :=
  (round (q * 100) : ℤ) / 100

/-- The mapping dictionary built for one target column (lines 303-311). -/
def mkMapping (source_cols : List Column) (tc : Column) : Mapping :=
  let b := bestMatch source_cols tc
  { target_column := tc.name
    target_type := tc.type
    source_column := b.1
    source_type :=
      if strOptTruthy b.1 then
        (source_cols.find? (fun d => d.name == b.1.getD "")).map (·.type)
      else
        none
    confidence := round2 b.2.1
    transformation := b.2.2
    status := if strOptTruthy b.1 then "suggested" else "unmapped" }

/-- One step of the Python dict comprehension `{col["name"]: col for col in
columns}`: a duplicate name overwrites in place, a new name appends. -/
def colsDictStep (l : List Column) (c : Column) : List Column :=
  if l.any (fun d => d.name == c.name) then
    l.map (fun d => if d.name == c.name then c else d)
  else
    l ++ [c]

/-- The Python dict comprehension over a table's columns, as the ordered list
of its values. -/
def colsDict (cols : List Column) : List Column :=
  cols.foldl colsDictStep []

/-- The `for table in tables` search with `break` (lines 253-261): columns of
the first table with the given name, passed through the dict comprehension. -/
def findTableCols (si : SchemaInfo) (name : String) : Option (List Column) :=
  (si.tables.find? (fun t => t.table_name == name)).map (fun t => colsDict t.columns)

/-- Python falsiness of the `source_cols` / `target_cols` variable: `None`
(no table matched) or an empty dict (a matching table with no columns). -/
def colsFalsy (o : Option (List Column)) : Bool :=
  (o.getD []).isEmpty

/-- The string key used for all three session stores:
`f"{source_table}_to_{target_table}"`. -/
def mappingKey (source_table target_table : String) : String :=
  source_table ++ "_to_" ++ target_table

/-- The mapped candidates of a mapping list (Python filters on the
truthiness of `m["source_column"]`). -/
def mappedOf (ms : List Mapping) : List Mapping :=
  ms.filter (fun m => strOptTruthy m.source_column)

/-- Modelled from the spec: `validate_mapping_output` is defined in
`guardrails.py`, which is not among the sources under src/.  Per spec 4.3,
every `source_column` referenced must belong to the source column set and
every `target_column` to the target column set; any discrepancy is a
hallucination.  Only its boolean verdict drives embedded behaviour. -/
def validate_mapping_output (mappings : List Mapping)
    (srcNames tgtNames : List String) : Bool :=
  mappings.all fun m =>
    (match m.source_column with
     | none => true
     | some n => srcNames.contains n) && tgtNames.contains m.target_column

/-- Modelled from the spec: the risk level computed by
`generate_risk_assessment` in `guardrails.py` (absent from src/).  Spec 4.3
derives it from the most severe observed condition - unmapped columns or low
average confidence raise the band.  It is only used as an audit tag; no claim
depends on its exact value. -/
def mappingRiskLevel (avg : ℚ) (unmapped : Nat) : String :=
  if 0 < unmapped || avg < 3/5 then "MEDIUM" else "LOW"

/-- The fixed message of the missing-snapshot error dictionary
(lines 242-247). -/
def schemaMissingMsg : String :=
  "Schema information not available. Run get_source_schema and get_target_schema first."

/-- The message of the table-not-found error dictionaries (lines 263-266);
`role` is `"Source"` or `"Target"`. -/
def tableMissingMsg (role tname : String) : String :=
  role ++ " table \x27" ++ tname ++ "\x27 not found in schema."

/-- The mapping loop and aggregate statistics of `suggest_column_mappings`
(lines 269-327): one candidate per (deduplicated) target column, in target
schema order, plus the mapped/unmapped counts and the rounded average over
mapped columns with denominator floor 1. -/
def buildSuggestResult (source_table target_table : String)
    (source_cols target_cols : List Column) : SuggestResult :=
  let mappings := target_cols.map (mkMapping source_cols)
  let mapped := mappedOf mappings
  { source_table := source_table
    target_table := target_table
    mappings := mappings
    mapping_count := mapped.length
    unmapped_count := (mappings.filter (fun m => !strOptTruthy m.source_column)).length
    average_confidence :=
      round2 ((mapped.map (·.confidence)).sum / (max mapped.length 1 : ℚ)) }

/-- Embeds `suggest_column_mappings` (lines 224-394): precondition checks,
the per-target-column inner loop, the aggregate statistics, the guardrail
validation (spec-modelled), the audit events, and the store into
`suggested_mappings`.  Returns the result (or error dictionary) together with
the updated session state. -/
def suggest_column_mappings (source_table target_table : String)
    (s : SessionState) : Except ErrDict SuggestResult × SessionState :=
  match s.source_schema, s.target_schema with
  | none, _ =>
    (Except.error ⟨schemaMissingMsg, some source_table, some target_table⟩, s)
  | some _, none =>
    (Except.error ⟨schemaMissingMsg, some source_table, some target_table⟩, s)
  | some ss, some ts =>
    let sc? := findTableCols ss source_table
    let tc? := findTableCols ts target_table
    if colsFalsy sc? then
      (Except.error ⟨tableMissingMsg "Source" source_table, none, none⟩, s)
    else if colsFalsy tc? then
      (Except.error ⟨tableMissingMsg "Target" target_table, none, none⟩, s)
    else
      let source_cols := sc?.getD []
      let target_cols := tc?.getD []
      let result := buildSuggestResult source_table target_table source_cols target_cols
      let valid := validate_mapping_output result.mappings
        (source_cols.map (·.name)) (target_cols.map (·.name))
      let log1 :=
        if valid then s.audit_log
        else s.audit_log ++ [⟨"MAPPING", "HALLUCINATION_PREVENTED", "HIGH"⟩]
      (Except.ok result,
       { s with
         suggested_mappings :=
           dictInsert s.suggested_mappings (mappingKey source_table target_table) result
         audit_log := log1 ++
           [⟨"MAPPING", "MAPPINGS_SUGGESTED",
             mappingRiskLevel result.average_confidence result.unmapped_count⟩] })

/-! ## Approval (`approve_mappings`) -/

/-- The error message of lines 443-447. -/
def noSuggestionMsg (source_table target_table : String) : String :=
  "No suggested mappings found for " ++ source_table ++ " -> " ++ target_table ++
  ". Run suggest_column_mappings first."

/-- The dictionary returned by `approve_mappings` on a decision:
`mapping_count` is present only on the approved dictionary; the
`audit_trail` wall-clock timestamp string is omitted. -/
structure ApproveResult where
  status : String
  source_table : String
  target_table : String
  mapping_count : Option Nat
  message : String
deriving DecidableEq, Repr

/-- Embeds `approve_mappings` (lines 422-542).  The human decision delivered
by `tool_context.request_confirmation` is the `decision` parameter; the
review payload built for the human is presentation-only and omitted.  On
approval the suggested mapping set is copied into `approved_mappings`; on
rejection no store is touched; both branches append exactly one audit
event at LOW risk. -/
def approve_mappings (source_table target_table : String) (decision : Bool)
    (s : SessionState) : Except ErrDict ApproveResult × SessionState :=
  match dictLookup s.suggested_mappings (mappingKey source_table target_table) with
  | none =>
    (Except.error ⟨noSuggestionMsg source_table target_table,
        some source_table, some target_table⟩, s)
  | some md =>
    if decision then
      (Except.ok ⟨"approved", source_table, target_table, some md.mapping_count,
          "Mappings approved. Ready to generate transformation SQL."⟩,
       { s with
         approved_mappings :=
           dictInsert s.approved_mappings (mappingKey source_table target_table) md
         audit_log := s.audit_log ++ [⟨"MAPPING", "MAPPINGS_APPROVED", "LOW"⟩] })
    else
      (Except.ok ⟨"rejected", source_table, target_table, none,
          "Mappings rejected. Please provide feedback for adjustments."⟩,
       { s with audit_log := s.audit_log ++ [⟨"MAPPING", "MAPPINGS_REJECTED", "LOW"⟩] })

/-! ## SQL synthesis (`generate_transformation_sql`) -/

/-- The `select_columns` loop of lines 579-591: for each mapped column the
transformation with `\x7bsource\x7d` substituted (or the bare source column),
for each unmapped column `NULL`, each aliased to the target column. -/
def buildSelectColumns (ms : List Mapping) : List String :=
  ms.foldl
    (fun acc m =>
      acc ++
        [if strOptTruthy m.source_column then
           if strOptTruthy m.transformation then
             "  " ++ strReplace (m.transformation.getD "") "\x7bsource\x7d"
                 (m.source_column.getD "") ++ " AS " ++ m.target_column
           else
             "  " ++ m.source_column.getD "" ++ " AS " ++ m.target_column
         else
           "  NULL AS " ++ m.target_column])
    []

/-- Models Python's `f"{x*100:.0f}"` on the exact rational (exact .5 ties are
rounded up here; no claim depends on a tie). -/
def fmtPct (q : ℚ) : String :=
  toString (round (q * 100) : ℤ)

/-- Everything of the INSERT text (lines 595-601) before the select clause. -/
def insertHeader (env : Env) (source_table target_table : String) (avg : ℚ) : String :=
  "-- Generated transformation: " ++ source_table ++ " -> " ++ target_table ++ "\n" ++
  "-- Generated at: \x7btimestamp\x7d\n" ++
  "-- Mapping confidence: " ++ fmtPct avg ++ "%\n\n" ++
  "INSERT INTO `" ++ env.project_id ++ "." ++ env.target_dataset ++ "." ++
  target_table ++ "`\nSELECT\n"

/-- Everything of the INSERT text (lines 602-603) after the select clause. -/
def insertFooter (env : Env) (source_table : String) : String :=
  "\nFROM `" ++ env.project_id ++ "." ++ env.source_dataset ++ "." ++
  source_table ++ "`;\n"

/-- The INSERT...SELECT text of lines 595-603. -/
def buildInsertSql (env : Env) (source_table target_table : String) (avg : ℚ)
    (ms : List Mapping) : String :=
  insertHeader env source_table target_table avg ++
    String.intercalate ",\n" (buildSelectColumns ms) ++ insertFooter env source_table

/-- The MERGE text (lines 606-612) before the select clause. -/
def mergeHeader (env : Env) (source_table target_table : String) : String :=
  "-- MERGE transformation: " ++ source_table ++ " -> " ++ target_table ++ "\n" ++
  "-- Use this for incremental updates\n\n" ++
  "MERGE `" ++ env.project_id ++ "." ++ env.target_dataset ++ "." ++ target_table ++
  "` AS target\nUSING (\n  SELECT\n"

/-- The MERGE text (lines 613-614) between the select clause and the ON key. -/
def mergeMid (env : Env) (source_table : String) : String :=
  "\n  FROM `" ++ env.project_id ++ "." ++ env.source_dataset ++ "." ++
  source_table ++ "`\n) AS source\n"

/-- The ON clause of line 615, keyed on `mapping_data['mappings'][0]` on both
sides. -/
def mergeOnClause (m0 : Mapping) : String :=
  "ON target." ++ m0.target_column ++ " = source." ++ m0.target_column

/-- The MERGE text of lines 616-621: UPDATE SET over mapped columns, INSERT
and VALUES over all target columns. -/
def mergeTail (ms : List Mapping) : String :=
  "\nWHEN MATCHED THEN\n  UPDATE SET " ++
  String.intercalate ", "
    ((mappedOf ms).map (fun m => "target." ++ m.target_column ++ " = source." ++ m.target_column)) ++
  "\nWHEN NOT MATCHED THEN\n  INSERT (" ++
  String.intercalate ", " (ms.map (·.target_column)) ++ ")\n  VALUES (" ++
  String.intercalate ", " (ms.map (fun m => "source." ++ m.target_column)) ++ ");\n"

/-- The full MERGE text of lines 606-621; `m0` is
`mapping_data['mappings'][0]`. -/
def buildMergeSql (env : Env) (source_table target_table : String)
    (ms : List Mapping) (m0 : Mapping) : String :=
  mergeHeader env source_table target_table ++
    String.intercalate ",\n" (buildSelectColumns ms) ++ mergeMid env source_table ++
    mergeOnClause m0 ++ mergeTail ms

/-- Modelled from the spec: `validate_sql_query` is defined in
`guardrails.py`, which is not among the sources under src/.  Per spec 4.3 it
is a lexical scan that rejects DROP, DELETE and stacked statements and
accepts a well-formed single INSERT...SELECT into the target; its non-fatal
warnings are omitted. -/
def validate_sql_query (sql : String) : Bool :=
  strIn "INSERT" sql && !(strIn "DROP" sql) && !(strIn "DELETE" sql) &&
    decide (sql.data.count (Char.ofNat 59) ≤ 1)

/-- The failure modes of `generate_transformation_sql`: the not-approved
error dictionary of lines 566-571 (which carries both table names), the
uncaught Python `IndexError` raised at line 615 when the approved mapping
list is empty, and the `status:"error"` dictionary of lines 635-641 returned
when SQL validation fails. -/
inductive GenErr where
  | notApproved (source_table target_table : String)
  | indexError
  | invalidSql (source_table target_table : String)
deriving DecidableEq, Repr

/-- Embeds `generate_transformation_sql` (lines 549-682): requires an
approved mapping set for the pair, builds the INSERT and MERGE texts,
validates the SQL (spec-modelled check), and stores the artifact under the
same string key in `generated_sql`. -/
def generate_transformation_sql (env : Env) (source_table target_table : String)
    (s : SessionState) : Except GenErr GeneratedSql × SessionState :=
  match dictLookup s.approved_mappings (mappingKey source_table target_table) with
  | none => (Except.error (GenErr.notApproved source_table target_table), s)
  | some md =>
    match md.mappings with
    | [] => (Except.error GenErr.indexError, s)
    | m0 :: _ =>
      let sql := buildInsertSql env source_table target_table md.average_confidence md.mappings
      let msql := buildMergeSql env source_table target_table md.mappings m0
      if !(validate_sql_query sql) then
        (Except.error (GenErr.invalidSql source_table target_table),
         { s with audit_log := s.audit_log ++
             [⟨"SQL_GENERATION", "INVALID_SQL_BLOCKED", "HIGH"⟩] })
      else
        let result : GeneratedSql :=
          ⟨source_table, target_table, sql, msql, md.mappings.length, md.mapping_count⟩
        (Except.ok result,
         { s with
           generated_sql :=
             dictInsert s.generated_sql (mappingKey source_table target_table) result
           audit_log := s.audit_log ++ [⟨"SQL_GENERATION", "SQL_GENERATED", "MEDIUM"⟩] })

/-! ## Execution gateway (`execute_transformation`), precondition stage -/

/-- Embeds the precondition check of `execute_transformation`
(lines 701-709): without a generated-SQL artifact for the pair it returns the
error dictionary carrying both table names and leaves the state untouched.
Past this check the tool performs the warehouse round-trip, which is external
I/O outside this embedding; the success branch therefore returns the stored
artifact that would be executed. -/
def execute_transformation (source_table target_table : String)
    (_dry_run : Bool) (s : SessionState) :
    Except ErrDict GeneratedSql × SessionState :=
  match dictLookup s.generated_sql (mappingKey source_table target_table) with
  | none =>
    (Except.error ⟨"No generated SQL found for " ++ source_table ++ " -> " ++
        target_table ++ ". Run generate_transformation_sql first.",
        some source_table, some target_table⟩, s)
  | some sqlData => (Except.ok sqlData, s)

/-! ## Session runs -/

/-- One tool invocation against the session state.  `setSource` / `setTarget`
model `get_source_schema` / `get_target_schema` caching an arbitrary
warehouse snapshot in the state bag. -/
inductive Op where
  | setSource (si : SchemaInfo)
  | setTarget (si : SchemaInfo)
  | suggest (source_table target_table : String)
  | approve (source_table target_table : String) (decision : Bool)
  | generate (env : Env) (source_table target_table : String)
  | execute (source_table target_table : String) (dry_run : Bool)

/-- State effect of one tool invocation. -/
def applyOp (s : SessionState) : Op → SessionState
  | .setSource si => { s with source_schema := some si }
  | .setTarget si => { s with target_schema := some si }
  | .suggest st tt => (suggest_column_mappings st tt s).2
  | .approve st tt d => (approve_mappings st tt d s).2
  | .generate env st tt => (generate_transformation_sql env st tt s).2
  | .execute st tt d => (execute_transformation st tt d s).2

/-- A session: a sequence of tool invocations from a starting state. -/
def runOps (ops : List Op) (s : SessionState) : SessionState :=
  ops.foldl applyOp s

/-- The fresh session state: no snapshots, empty stores, empty audit log. -/
def initState : SessionState :=
  ⟨none, none, [], [], [], []⟩

/-! ## Spec-side definitions

These follow the words of the specification and of the claims; the claim
theorems compare them against the embedded source functions above. -/

/-- The scored candidate list for one target column: every source column the
cascade qualifies, with its candidate confidence and optional transform. -/
def cands (source_cols : List Column) (tc : Column) :
    List (String × ℚ × Option String) :=
  source_cols.filterMap fun sc => (candScore sc tc).map (fun p => (sc.name, p))

/-- Claim-side selection: the single best-scoring candidate, ties broken by
first-seen order - literally, the first candidate whose confidence is at
least every candidate's confidence; when none qualifies, no source column,
confidence 0, no transform. -/
def specSelect (source_cols : List Column) (tc : Column) :
    Option String × ℚ × Option String :=
  match (cands source_cols tc).find?
      (fun x => (cands source_cols tc).all (fun y => decide (y.2.1 ≤ x.2.1))) with
  | none => (none, 0, none)
  | some (n, c, t) => (some n, c, t)

/-- Claim-side mapping candidate for one target column: the selected best
source column with its looked-up type and rounded confidence, or an unmapped
entry with confidence 0 and no transform. -/
def specMapping (source_cols : List Column) (tc : Column) : Mapping :=
  match specSelect source_cols tc with
  | (none, _, _) => ⟨tc.name, tc.type, none, none, 0, none, "unmapped"⟩
  | (some n, c, t) =>
    ⟨tc.name, tc.type, some n,
      (source_cols.find? (fun d => d.name == n)).map (·.type),
      round2 c, t, "suggested"⟩

/-- Recursive reference selection used to relate the source fold to
`specSelect`: keep the better of the head candidate and the best of the
tail, the head winning ties. -/
def selectRec (tc : Column) : List Column → Option String × ℚ × Option String
  | [] => (none, 0, none)
  | sc :: rest =>
    let r := selectRec tc rest
    match candScore sc tc with
    | none => r
    | some (c, t) => if r.2.1 ≤ c then (some sc.name, c, t) else r

/-- The similarity predicate as claim C3 words it: strip each fixed prefix
when the lowercased name starts with it, strip the shared fixed suffix when
both names end with the same one, then test equality or containment. -/
def claimSimilar (name1 name2 : String) : Bool :=
  let strip := fun (n : String) =>
    ["src_", "tgt_", "dim_", "fact_", "stg_"].foldl
      (fun m p => if p.data.isPrefixOf m.data then ⟨m.data.drop p.data.length⟩ else m) n
  let n1 := strip (strLower name1)
  let n2 := strip (strLower name2)
  let q :=
    match ["_id", "_key", "_code", "_date", "_amt", "_amount"].find?
        (fun suf => strEndsWith n1 suf && strEndsWith n2 suf) with
    | some suf => (dropTail n1 suf.length, dropTail n2 suf.length)
    | none => (n1, n2)
  q.1 == q.2 || strIn q.1 q.2 || strIn q.2 q.1

/-- The mapped candidates' confidences, as summed by the average on
line 324. -/
def mappedConfs (ms : List Mapping) : List ℚ :=
  (mappedOf ms).map (·.confidence)

/-- The invariant behind claim C10: every stored mapping set (suggested or
approved) has a non-empty candidate list. -/
def StoresNonEmpty (s : SessionState) : Prop :=
  (∀ k r, dictLookup s.suggested_mappings k = some r → r.mappings ≠ []) ∧
  (∀ k r, dictLookup s.approved_mappings k = some r → r.mappings ≠ [])

/-! ## Concrete fixtures used by witnesses and counterexamples -/

/-- A column with the given name and declared type (nullability and ordinal
position play no role in the mapping pipeline). -/
def mkCol (n t : String) : Column :=
  ⟨n, t, true, 0⟩

/-- The source snapshot of the end-to-end scenario:
`cust_src(cust_id INT64, cust_name STRING)`. -/
def custSourceSchema : SchemaInfo :=
  ⟨"src_ds", "proj", [⟨"cust_src", [mkCol "cust_id" "INT64", mkCol "cust_name" "STRING"]⟩]⟩

/-- The target snapshot of the end-to-end scenario:
`customer(customer_id INT64, customer_name STRING, customer_status STRING)`. -/
def custTargetSchema : SchemaInfo :=
  ⟨"tgt_ds", "proj",
    [⟨"customer", [mkCol "customer_id" "INT64", mkCol "customer_name" "STRING",
      mkCol "customer_status" "STRING"]⟩]⟩

/-- Session state with both scenario snapshots loaded. -/
def custState : SessionState :=
  { initState with
    source_schema := some custSourceSchema
    target_schema := some custTargetSchema }

/-- What `suggest_column_mappings` actually returns on the scenario. -/
def custSuggestExpected : SuggestResult :=
  { source_table := "cust_src"
    target_table := "customer"
    mappings :=
      [⟨"customer_id", "INT64", some "cust_id", some "INT64", 3/5, none, "suggested"⟩,
       ⟨"customer_name", "STRING", none, none, 0, none, "unmapped"⟩,
       ⟨"customer_status", "STRING", none, none, 0, none, "unmapped"⟩]
    mapping_count := 1
    unmapped_count := 2
    average_confidence := 3/5 }

/-- Environment fixture for SQL generation. -/
def theEnv : Env :=
  ⟨"proj", "sds", "tds"⟩

/-- Scenario state after suggesting the customer mapping. -/
def custSuggested : SessionState :=
  (suggest_column_mappings "cust_src" "customer" custState).2

/-- Scenario state after suggest, approve and generate. -/
def custFinalState : SessionState :=
  runOps [Op.approve "cust_src" "customer" true,
    Op.generate theEnv "cust_src" "customer"] custSuggested

/-- The INSERT statement generated for the scenario. -/
def custInsertSql : String :=
  ((dictLookup custFinalState.generated_sql (mappingKey "cust_src" "customer")).map
    (·.insert_sql)).getD ""

/-- Schemas for the average-confidence counterexample: two exact matches
(0.95 each) and one similarity match (0.60). -/
def avgSourceSchema : SchemaInfo :=
  ⟨"d", "p", [⟨"s", [mkCol "aa" "INT64", mkCol "bb" "INT64", mkCol "cust_id" "INT64"]⟩]⟩

/-- Target side of the average-confidence counterexample. -/
def avgTargetSchema : SchemaInfo :=
  ⟨"d", "p", [⟨"t", [mkCol "aa" "INT64", mkCol "bb" "INT64", mkCol "customer_id" "INT64"]⟩]⟩

/-- Session state for the average-confidence counterexample. -/
def avgState : SessionState :=
  { initState with
    source_schema := some avgSourceSchema
    target_schema := some avgTargetSchema }

/-- Source schema for the MERGE-key counterexample: a single column `xx`. -/
def mergeSourceSchema : SchemaInfo :=
  ⟨"d", "p", [⟨"ord_src", [mkCol "xx" "INT64"]⟩]⟩

/-- Target schema for the MERGE-key counterexample: the first target column
`status` has no qualifying source column, the second (`xx`) matches
exactly. -/
def mergeTargetSchema : SchemaInfo :=
  ⟨"d", "p", [⟨"ord_tgt", [mkCol "status" "STRING", mkCol "xx" "INT64"]⟩]⟩

/-- Session state for the MERGE-key counterexample. -/
def mergeState : SessionState :=
  { initState with
    source_schema := some mergeSourceSchema
    target_schema := some mergeTargetSchema }

/-- What `suggest_column_mappings` returns on the MERGE-key scenario. -/
def mergeSuggestExpected : SuggestResult :=
  { source_table := "ord_src"
    target_table := "ord_tgt"
    mappings :=
      [⟨"status", "STRING", none, none, 0, none, "unmapped"⟩,
       ⟨"xx", "INT64", some "xx", some "INT64", 19/20, none, "suggested"⟩]
    mapping_count := 1
    unmapped_count := 1
    average_confidence := 19/20 }

/-- MERGE-key scenario after suggest and approve. -/
def mergeApprovedState : SessionState :=
  runOps [Op.suggest "ord_src" "ord_tgt", Op.approve "ord_src" "ord_tgt" true]
    mergeState

/-- MERGE-key scenario after suggest, approve and generate. -/
def mergeFinalState : SessionState :=
  runOps [Op.suggest "ord_src" "ord_tgt", Op.approve "ord_src" "ord_tgt" true,
    Op.generate theEnv "ord_src" "ord_tgt"] mergeState

/-- The generated-SQL artifact of the MERGE-key scenario. -/
def mergeGenerated : GeneratedSql :=
  (dictLookup mergeFinalState.generated_sql (mappingKey "ord_src" "ord_tgt")).getD
    ⟨"", "", "", "", 0, 0⟩

/-- Schemas whose table names make two distinct table pairs collide on the
store key: `("a", "b_to_c")` and `("a_to_b", "c")` both key to
`"a_to_b_to_c"`. -/
def aliasSourceSchema : SchemaInfo :=
  ⟨"d", "p", [⟨"a", [mkCol "m" "INT64"]⟩, ⟨"a_to_b", [mkCol "m" "INT64"]⟩]⟩

/-- Target side of the key-collision counterexample. -/
def aliasTargetSchema : SchemaInfo :=
  ⟨"d", "p", [⟨"b_to_c", [mkCol "m" "INT64"]⟩, ⟨"c", [mkCol "m" "INT64"]⟩]⟩

/-- Session state for the key-collision counterexample. -/
def aliasState : SessionState :=
  { initState with
    source_schema := some aliasSourceSchema
    target_schema := some aliasTargetSchema }

/-- Key-collision state after suggesting for the pair `("a", "b_to_c")`. -/
def aliasState1 : SessionState :=
  (suggest_column_mappings "a" "b_to_c" aliasState).2

/-- Key-collision state after additionally suggesting for the distinct pair
`("a_to_b", "c")`. -/
def aliasState2 : SessionState :=
  (suggest_column_mappings "a_to_b" "c" aliasState1).2

/-! ## Helper lemmas -/

theorem find?_congr {α : Type} {p q : α → Bool} :
    ∀ (l : List α), (∀ x ∈ l, p x = q x) → l.find? p = l.find? q := by
  intro l
  induction l with
  | nil => intro _; rfl
  | cons a t ih =>
    intro h
    have ha := h a (by simp)
    by_cases hpa : p a = true
    · rw [List.find?_cons_of_pos _ hpa, List.find?_cons_of_pos _ (ha ▸ hpa)]
    · rw [List.find?_cons_of_neg _ hpa,
        List.find?_cons_of_neg _ (by rw [← ha]; exact hpa)]
      exact ih fun x hx => h x (by simp [hx])

theorem dictLookup_cons {α : Type} (a : String × α) (l : List (String × α))
    (k : String) :
    dictLookup (a :: l) k = if a.1 == k then some a.2 else dictLookup l k := rfl

theorem lookup_map_self {α : Type} (k : String) (v : α) :
    ∀ (l : List (String × α)), l.any (fun p => p.1 == k) = true →
      dictLookup (l.map (fun p => if p.1 == k then (k, v) else p)) k = some v := by
  intro l
  induction l with
  | nil => intro h; simp at h
  | cons a t ih =>
    intro h
    rw [List.map_cons]
    cases hb : (a.1 == k) with
    | true =>
      rw [if_pos rfl, dictLookup_cons]
      simp
    | false =>
      rw [if_neg (by simp), dictLookup_cons, if_neg (by simp [hb])]
      apply ih
      simp only [List.any_cons, hb, Bool.false_or] at h
      exact h

theorem lookup_map_other {α : Type} (k k' : String) (v : α) (hne : k' ≠ k) :
    ∀ (l : List (String × α)),
      dictLookup (l.map (fun p => if p.1 == k then (k, v) else p)) k' =
        dictLookup l k' := by
  intro l
  have h1 : (k == k') = false := beq_eq_false_iff_ne.mpr (Ne.symm hne)
  induction l with
  | nil => rfl
  | cons a t ih =>
    rw [List.map_cons]
    cases hb : (a.1 == k) with
    | true =>
      have ha : a.1 = k := by simpa using hb
      rw [if_pos rfl, dictLookup_cons, dictLookup_cons,
        if_neg (by simp [h1]), if_neg (by simp [ha, h1])]
      exact ih
    | false =>
      rw [if_neg (by simp), dictLookup_cons, dictLookup_cons]
      cases hb' : (a.1 == k') with
      | true => rw [if_pos rfl, if_pos rfl]
      | false => rw [if_neg (by simp), if_neg (by simp)]; exact ih

theorem lookup_append_single_self {α : Type} (k : String) (v : α) :
    ∀ (l : List (String × α)), l.any (fun p => p.1 == k) = false →
      dictLookup (l ++ [(k, v)]) k = some v := by
  intro l
  induction l with
  | nil => intro _; rw [List.nil_append, dictLookup_cons]; simp
  | cons a t ih =>
    intro h
    simp only [List.any_cons, Bool.or_eq_false_iff] at h
    rw [List.cons_append, dictLookup_cons, if_neg (by simp [h.1])]
    exact ih h.2

theorem lookup_append_single_other {α : Type} (k k' : String) (v : α)
    (hne : k' ≠ k) :
    ∀ (l : List (String × α)),
      dictLookup (l ++ [(k, v)]) k' = dictLookup l k' := by
  intro l
  have h1 : (k == k') = false := beq_eq_false_iff_ne.mpr (Ne.symm hne)
  induction l with
  | nil => rw [List.nil_append, dictLookup_cons, if_neg (by simp [h1])]
  | cons a t ih =>
    rw [List.cons_append, dictLookup_cons, dictLookup_cons]
    cases hb' : (a.1 == k') with
    | true => rw [if_pos rfl, if_pos rfl]
    | false => rw [if_neg (by simp), if_neg (by simp)]; exact ih

/-- Characterization of Python-dict insertion: the inserted key reads back
the inserted value, every other key is untouched. -/
theorem dictLookup_dictInsert {α : Type} (l : List (String × α))
    (k k' : String) (v : α) :
    dictLookup (dictInsert l k v) k' = if k' = k then some v else dictLookup l k' := by
  by_cases hk : k' = k
  · subst hk
    simp only [if_pos rfl]
    unfold dictInsert
    by_cases h : l.any (fun p => p.1 == k') = true
    · rw [if_pos h]; exact lookup_map_self k' v l h
    · rw [if_neg h]
      exact lookup_append_single_self k' v l (eq_false_of_ne_true h)
  · rw [if_neg hk]
    unfold dictInsert
    by_cases h : l.any (fun p => p.1 == k) = true
    · rw [if_pos h]; exact lookup_map_other k k' v hk l
    · rw [if_neg h]; exact lookup_append_single_other k k' v hk l

theorem isSub_iff (n : List Char) : ∀ h : List Char, isSub n h = true ↔ n <:+: h := by
  intro h
  induction h with
  | nil => simp [isSub, List.isEmpty_iff, List.infix_nil]
  | cons c rest ih =>
    simp only [isSub, Bool.or_eq_true, ih, List.isPrefixOf_iff_prefix,
      List.infix_cons_iff]

theorem strIn_iff (a b : String) : strIn a b = true ↔ a.data <:+: b.data :=
  isSub_iff a.data b.data

theorem candScore_bounds (sc tc : Column) (c : ℚ) (t : Option String)
    (h : candScore sc tc = some (c, t)) : 1/2 ≤ c ∧ c ≤ 19/20 := by
  unfold candScore ruleConfidence at h
  split_ifs at h <;>
    simp only [Option.map_some', Option.map_none'] at h <;>
    first
    | (rw [Option.some.injEq, Prod.mk.injEq] at h
       obtain ⟨hc, -⟩ := h
       rw [← hc]
       norm_num)
    | exact absurd h (by simp)

theorem cands_cons_none {sc : Column} {tc : Column} (rest : List Column)
    (h : candScore sc tc = none) : cands (sc :: rest) tc = cands rest tc := by
  simp [cands, List.filterMap_cons, h]

theorem cands_cons_some {sc : Column} {tc : Column} {p : ℚ × Option String}
    (rest : List Column) (h : candScore sc tc = some p) :
    cands (sc :: rest) tc = (sc.name, p) :: cands rest tc := by
  simp [cands, List.filterMap_cons, h]

theorem selectRec_conf_nonneg (tc : Column) :
    ∀ l : List Column, 0 ≤ (selectRec tc l).2.1 := by
  intro l
  induction l with
  | nil => norm_num [selectRec]
  | cons sc rest ih =>
    rcases h : candScore sc tc with _ | ⟨c, t⟩
    · simpa only [selectRec, h] using ih
    · obtain ⟨hc1, -⟩ := candScore_bounds sc tc c t h
      simp only [selectRec, h]
      split_ifs
      · dsimp only; linarith
      · exact ih

theorem selectRec_max (tc : Column) :
    ∀ l : List Column, ∀ x ∈ cands l tc, x.2.1 ≤ (selectRec tc l).2.1 := by
  intro l
  induction l with
  | nil => simp [cands]
  | cons sc rest ih =>
    intro x hx
    rcases h : candScore sc tc with _ | ⟨c, t⟩
    · rw [cands_cons_none rest h] at hx
      simpa only [selectRec, h] using ih x hx
    · rw [cands_cons_some rest h] at hx
      simp only [selectRec, h]
      rcases List.mem_cons.mp hx with rfl | hx'
      · split_ifs with hle
        · dsimp only; exact le_refl _
        · dsimp only; push_neg at hle; exact le_of_lt hle
      · have hih := ih x hx'
        split_ifs with hle
        · dsimp only; exact le_trans hih hle
        · exact hih

theorem selectRec_eq_default (tc : Column) :
    ∀ l : List Column, (selectRec tc l).2.1 ≤ 0 → selectRec tc l = (none, 0, none) := by
  intro l
  induction l with
  | nil => intro _; rfl
  | cons sc rest ih =>
    intro hle
    rcases h : candScore sc tc with _ | ⟨c, t⟩
    · rw [selectRec] at hle ⊢
      simp only [h] at hle ⊢
      exact ih hle
    · obtain ⟨hc1, -⟩ := candScore_bounds sc tc c t h
      rw [selectRec] at hle ⊢
      simp only [h] at hle ⊢
      split_ifs at hle ⊢ with hcase
      · dsimp only at hle; linarith
      · exact ih hle

theorem selectRec_mem_of_pos (tc : Column) :
    ∀ l : List Column, 0 < (selectRec tc l).2.1 →
      ∃ y ∈ cands l tc, selectRec tc l = (some y.1, y.2) := by
  intro l
  induction l with
  | nil => intro hpos; norm_num [selectRec] at hpos
  | cons sc rest ih =>
    intro hpos
    rcases h : candScore sc tc with _ | ⟨c, t⟩
    · simp only [selectRec, h] at hpos ⊢
      obtain ⟨y, hy, hyE⟩ := ih hpos
      exact ⟨y, by rw [cands_cons_none rest h]; exact hy, hyE⟩
    · simp only [selectRec, h] at hpos ⊢
      split_ifs at hpos ⊢ with hle
      · exact ⟨(sc.name, c, t),
          by rw [cands_cons_some rest h]; exact List.mem_cons_self _ _, rfl⟩
      · obtain ⟨y, hy, hyE⟩ := ih hpos
        exact ⟨y, by rw [cands_cons_some rest h]; exact List.mem_cons_of_mem _ hy, hyE⟩

theorem foldl_chooseStep (tc : Column) :
    ∀ (l : List Column) (acc : Option String × ℚ × Option String), 0 ≤ acc.2.1 →
      l.foldl (chooseStep tc) acc =
        if acc.2.1 < (selectRec tc l).2.1 then selectRec tc l else acc := by
  intro l
  induction l with
  | nil =>
    intro acc hacc
    simp only [List.foldl_nil, selectRec]
    rw [if_neg]
    push_neg
    exact hacc
  | cons sc rest ih =>
    intro acc hacc
    rw [List.foldl_cons]
    rcases h : candScore sc tc with _ | ⟨c, t⟩
    · have hstep : chooseStep tc acc sc = acc := by simp [chooseStep, h]
      rw [hstep, ih acc hacc]
      simp only [selectRec, h]
    · obtain ⟨hc1, -⟩ := candScore_bounds sc tc c t h
      have hstep : chooseStep tc acc sc =
          if acc.2.1 < c then (some sc.name, c, t) else acc := by
        simp [chooseStep, h]
      have hsel : selectRec tc (sc :: rest) =
          if (selectRec tc rest).2.1 ≤ c then (some sc.name, c, t)
          else selectRec tc rest := by
        simp only [selectRec, h]
      have hr0 : 0 ≤ (selectRec tc rest).2.1 := selectRec_conf_nonneg tc rest
      rw [hstep, hsel]
      by_cases hA : acc.2.1 < c
      · rw [if_pos hA, ih _ (by dsimp only; linarith)]
        dsimp only
        by_cases hB : (selectRec tc rest).2.1 ≤ c
        · rw [if_neg (not_lt.mpr hB), if_pos hB, if_pos (by dsimp only; exact hA)]
        · push_neg at hB
          rw [if_pos hB, if_neg (not_le.mpr hB), if_pos (by linarith)]
      · push_neg at hA
        rw [if_neg (not_lt.mpr hA), ih acc hacc]
        by_cases hB : (selectRec tc rest).2.1 ≤ c
        · rw [if_pos hB, if_neg (not_lt.mpr (le_trans hB hA)),
            if_neg (by dsimp only; exact not_lt.mpr hA)]
        · push_neg at hB
          rw [if_neg (not_le.mpr hB)]

theorem bestMatch_eq_selectRec (source_cols : List Column) (tc : Column) :
    bestMatch source_cols tc = selectRec tc source_cols := by
  unfold bestMatch
  rw [foldl_chooseStep tc source_cols (none, 0, none) (by norm_num)]
  by_cases h : (0:ℚ) < (selectRec tc source_cols).2.1
  · rw [if_pos (by dsimp only; exact h)]
  · push_neg at h
    rw [if_neg (by dsimp only; exact not_lt.mpr h), selectRec_eq_default tc source_cols h]

theorem selectRec_eq_specSelect (tc : Column) :
    ∀ l : List Column, selectRec tc l = specSelect l tc := by
  intro l
  induction l with
  | nil => rfl
  | cons sc rest ih =>
    rcases h : candScore sc tc with _ | ⟨c, t⟩
    · have hc := cands_cons_none rest h
      simp only [selectRec, h]
      rw [ih]
      unfold specSelect
      rw [hc]
    · obtain ⟨hc1, -⟩ := candScore_bounds sc tc c t h
      have hc := cands_cons_some rest h
      unfold specSelect
      rw [hc]
      rw [List.find?_cons]
      dsimp only
      by_cases hB : (selectRec tc rest).2.1 ≤ c
      · have hall : ((sc.name, c, t) :: cands rest tc).all
            (fun y => decide (y.2.1 ≤ c)) = true := by
          rw [List.all_eq_true]
          intro y hy
          rcases List.mem_cons.mp hy with rfl | hy'
          · simp
          · have := le_trans (selectRec_max tc rest y hy') hB
            simpa using this
        rw [hall]
        simp only [selectRec, h, if_pos hB]
      · push_neg at hB
        obtain ⟨y, hy, hyE⟩ :=
          selectRec_mem_of_pos tc rest (lt_of_le_of_lt (by linarith) hB)
        have hyconf : (selectRec tc rest).2.1 = y.2.1 := by rw [hyE]
        have hhead : (((sc.name, c, t) :: cands rest tc).all
            (fun z => decide (z.2.1 ≤ c))) = false := by
          rw [List.all_eq_false]
          refine ⟨y, List.mem_cons_of_mem _ hy, ?_⟩
          simp only [decide_eq_true_eq]
          push_neg
          calc c < (selectRec tc rest).2.1 := hB
            _ = y.2.1 := hyconf
        rw [hhead]
        have hcong : (cands rest tc).find?
              (fun z => ((sc.name, c, t) :: cands rest tc).all
                (fun y => decide (y.2.1 ≤ z.2.1))) =
            (cands rest tc).find?
              (fun z => (cands rest tc).all (fun y => decide (y.2.1 ≤ z.2.1))) := by
          apply find?_congr
          intro z hz
          rw [List.all_cons]
          by_cases hzp : (cands rest tc).all (fun y => decide (y.2.1 ≤ z.2.1)) = true
          · have hyz : y.2.1 ≤ z.2.1 := by
              have := List.all_eq_true.mp hzp y hy
              simpa using this
            have hcz : c ≤ z.2.1 := by
              have : c < z.2.1 := lt_of_lt_of_le (hyconf ▸ hB) hyz
              linarith
            simp [hzp, hcz]
          · simp [hzp]
        rw [hcong]
        simp only [selectRec, h, if_neg (not_le.mpr hB)]
        rw [ih]
        unfold specSelect
        rfl

theorem bestMatch_eq_specSelect (source_cols : List Column) (tc : Column) :
    bestMatch source_cols tc = specSelect source_cols tc :=
  (bestMatch_eq_selectRec source_cols tc).trans (selectRec_eq_specSelect tc source_cols)

theorem specSelect_none (source_cols : List Column) (tc : Column)
    (h : (specSelect source_cols tc).1 = none) :
    specSelect source_cols tc = (none, 0, none) := by
  unfold specSelect at h ⊢
  rcases hf : (cands source_cols tc).find?
      (fun x => (cands source_cols tc).all (fun y => decide (y.2.1 ≤ x.2.1))) with _ | y
  · rw [hf]
  · rw [hf] at h
    rcases y with ⟨n, c, t⟩
    simp at h

theorem cands_name_mem (source_cols : List Column) (tc : Column) :
    ∀ y ∈ cands source_cols tc, ∃ sc ∈ source_cols, sc.name = y.1 := by
  intro y hy
  rw [cands, List.mem_filterMap] at hy
  obtain ⟨sc, hsc, hf⟩ := hy
  rcases hcs : candScore sc tc with _ | p <;> rw [hcs] at hf
  · simp at hf
  · simp only [Option.map_some', Option.some.injEq] at hf
    exact ⟨sc, hsc, by rw [← hf]⟩

theorem specSelect_some_name (source_cols : List Column) (tc : Column) (n : String)
    (h : (specSelect source_cols tc).1 = some n) :
    ∃ sc ∈ source_cols, sc.name = n := by
  have hsel := selectRec_eq_specSelect tc source_cols
  by_cases hc0 : (selectRec tc source_cols).2.1 ≤ 0
  · rw [selectRec_eq_default tc source_cols hc0] at hsel
    rw [← hsel] at h
    simp at h
  · push_neg at hc0
    obtain ⟨y, hy, hyE⟩ := selectRec_mem_of_pos tc source_cols hc0
    obtain ⟨sc, hsc, hname⟩ := cands_name_mem source_cols tc y hy
    rw [hsel] at hyE
    rw [hyE] at h
    exact ⟨sc, hsc, hname.trans (Option.some.inj h)⟩

theorem round2_zero : round2 0 = 0 := by
  norm_num [round2]

theorem selectRec_conf_le (tc : Column) :
    ∀ l : List Column, (selectRec tc l).2.1 ≤ 19/20 := by
  intro l
  induction l with
  | nil => norm_num [selectRec]
  | cons sc rest ih =>
    rcases h : candScore sc tc with _ | ⟨c, t⟩
    · simpa only [selectRec, h] using ih
    · obtain ⟨-, hc2⟩ := candScore_bounds sc tc c t h
      simp only [selectRec, h]
      split_ifs
      · dsimp only; linarith
      · exact ih

theorem round_mono' {x y : ℚ} (h : x ≤ y) : round x ≤ round y := by
  rw [round_eq, round_eq]
  exact Int.floor_le_floor (by linarith)

theorem round2_nonneg {q : ℚ} (h : 0 ≤ q) : 0 ≤ round2 q := by
  unfold round2
  have h0 : round ((0:ℚ)) ≤ round (q * 100) := round_mono' (by nlinarith)
  rw [round_zero] at h0
  exact div_nonneg (by exact_mod_cast h0) (by norm_num)

theorem round2_le_one {q : ℚ} (h : q ≤ 1) : round2 q ≤ 1 := by
  unfold round2
  have h0 : round (q * 100) ≤ round ((100:ℚ)) := round_mono' (by nlinarith)
  have h1 : round ((100:ℚ)) = 100 := by norm_num
  rw [h1] at h0
  rw [div_le_one (by norm_num)]
  exact_mod_cast h0

theorem foldl_append_map {α β : Type} (f : α → β) :
    ∀ (l : List α) (acc : List β),
      l.foldl (fun a m => a ++ [f m]) acc = acc ++ l.map f := by
  intro l
  induction l with
  | nil => intro acc; simp
  | cons a t ih =>
    intro acc
    rw [List.foldl_cons, ih, List.map_cons, List.append_assoc, List.singleton_append]

theorem buildSelectColumns_eq_map (ms : List Mapping) :
    buildSelectColumns ms = ms.map (fun m =>
      if strOptTruthy m.source_column then
        if strOptTruthy m.transformation then
          "  " ++ strReplace (m.transformation.getD "") "\x7bsource\x7d"
              (m.source_column.getD "") ++ " AS " ++ m.target_column
        else
          "  " ++ m.source_column.getD "" ++ " AS " ++ m.target_column
      else
        "  NULL AS " ++ m.target_column) := by
  unfold buildSelectColumns
  rw [foldl_append_map]
  exact List.nil_append _

theorem infix_str_refl (a : String) : a.data <:+: a.data :=
  List.infix_refl a.data

theorem infix_str_append_right (a s t : String) (h : a.data <:+: s.data) :
    a.data <:+: (s ++ t).data := by
  rw [String.data_append]
  exact h.trans (List.prefix_append s.data t.data).isInfix

theorem infix_str_append_left (a s t : String) (h : a.data <:+: t.data) :
    a.data <:+: (s ++ t).data := by
  rw [String.data_append]
  exact h.trans (List.suffix_append s.data t.data).isInfix

theorem colsFalsy_false {o : Option (List Column)} (h : colsFalsy o = false) :
    ∃ l, o = some l ∧ l ≠ [] := by
  rcases o with _ | l
  · simp [colsFalsy] at h
  · refine ⟨l, rfl, ?_⟩
    intro hl
    subst hl
    simp [colsFalsy] at h

/-- Inversion of a successful `suggest_column_mappings` call: both snapshots
were present, both tables were found with a non-empty column dict, the
result is `buildSuggestResult`, and only the `suggested_mappings` store and
the audit log changed. -/
theorem suggest_ok_shape (st tt : String) (s : SessionState) (r : SuggestResult)
    (s' : SessionState) (h : suggest_column_mappings st tt s = (Except.ok r, s')) :
    ∃ ss ts : SchemaInfo, ∃ source_cols target_cols : List Column,
      s.source_schema = some ss ∧ s.target_schema = some ts ∧
      findTableCols ss st = some source_cols ∧ source_cols ≠ [] ∧
      findTableCols ts tt = some target_cols ∧ target_cols ≠ [] ∧
      r = buildSuggestResult st tt source_cols target_cols ∧
      s'.suggested_mappings = dictInsert s.suggested_mappings (mappingKey st tt) r ∧
      s'.approved_mappings = s.approved_mappings ∧
      s'.generated_sql = s.generated_sql := by
  unfold suggest_column_mappings at h
  rcases hss : s.source_schema with _ | ss <;> rw [hss] at h
  · exact absurd (congrArg Prod.fst h) (by simp)
  rcases hts : s.target_schema with _ | ts <;> rw [hts] at h
  · exact absurd (congrArg Prod.fst h) (by simp)
  dsimp only at h
  rcases hsf : colsFalsy (findTableCols ss st) with _ | _ <;> rw [hsf] at h
  case true => exact absurd (congrArg Prod.fst h) (by simp)
  rw [if_neg (by simp)] at h
  rcases htf : colsFalsy (findTableCols ts tt) with _ | _ <;> rw [htf] at h
  case true => rw [if_pos rfl] at h; exact absurd (congrArg Prod.fst h) (by simp)
  rw [if_neg (by simp)] at h
  obtain ⟨scl, hscl, hscl0⟩ := colsFalsy_false hsf
  obtain ⟨tcl, htcl, htcl0⟩ := colsFalsy_false htf
  have h1 := congrArg Prod.fst h
  have h2 := congrArg Prod.snd h
  dsimp only at h1 h2
  have hr : r = buildSuggestResult st tt ((findTableCols ss st).getD [])
      ((findTableCols ts tt).getD []) := (Except.ok.inj h1).symm
  rw [hscl, htcl] at hr
  simp only [Option.getD_some] at hr
  refine ⟨ss, ts, scl, tcl, rfl, rfl, hscl, hscl0, htcl, htcl0, hr, ?_, ?_, ?_⟩
  · rw [← h2]
    dsimp only
    rw [hscl, htcl]
    simp only [Option.getD_some]
    rw [← hr]
  · rw [← h2]
  · rw [← h2]

theorem buildSuggestResult_mappings (st tt : String) (sc tcl : List Column) :
    (buildSuggestResult st tt sc tcl).mappings = tcl.map (mkMapping sc) := rfl

theorem buildSuggestResult_count (st tt : String) (sc tcl : List Column) :
    (buildSuggestResult st tt sc tcl).mapping_count =
      (mappedOf (tcl.map (mkMapping sc))).length := rfl

theorem buildSuggestResult_avg (st tt : String) (sc tcl : List Column) :
    (buildSuggestResult st tt sc tcl).average_confidence =
      round2 ((mappedConfs (tcl.map (mkMapping sc))).sum /
        (max (mappedOf (tcl.map (mkMapping sc))).length 1 : ℚ)) := rfl

/-- A `suggest_column_mappings` call either leaves the state untouched (all
error paths) or returns a result value. -/
theorem suggest_cases (st tt : String) (s : SessionState) :
    (suggest_column_mappings st tt s).2 = s ∨
    ∃ r, suggest_column_mappings st tt s =
      (Except.ok r, (suggest_column_mappings st tt s).2) := by
  unfold suggest_column_mappings
  rcases s.source_schema with _ | ss
  · left; rfl
  rcases s.target_schema with _ | ts
  · left; rfl
  dsimp only
  cases hsf : colsFalsy (findTableCols ss st)
  case true => rw [if_pos rfl]; left; rfl
  rw [if_neg (by simp)]
  cases htf : colsFalsy (findTableCols ts tt)
  case true => rw [if_pos rfl]; left; rfl
  rw [if_neg (by simp)]
  right
  exact ⟨_, rfl⟩

/-- Reduction of `approve_mappings` with a present suggestion and an
approving decision. -/
theorem approve_found_true (st tt : String) (s : SessionState) (md : SuggestResult)
    (h : dictLookup s.suggested_mappings (mappingKey st tt) = some md) :
    approve_mappings st tt true s =
      (Except.ok ⟨"approved", st, tt, some md.mapping_count,
        "Mappings approved. Ready to generate transformation SQL."⟩,
       { s with
         approved_mappings := dictInsert s.approved_mappings (mappingKey st tt) md
         audit_log := s.audit_log ++ [⟨"MAPPING", "MAPPINGS_APPROVED", "LOW"⟩] }) := by
  unfold approve_mappings
  rw [h]
  rfl

/-- Reduction of `approve_mappings` with a present suggestion and a
rejecting decision. -/
theorem approve_found_false (st tt : String) (s : SessionState) (md : SuggestResult)
    (h : dictLookup s.suggested_mappings (mappingKey st tt) = some md) :
    approve_mappings st tt false s =
      (Except.ok ⟨"rejected", st, tt, none,
        "Mappings rejected. Please provide feedback for adjustments."⟩,
       { s with audit_log := s.audit_log ++ [⟨"MAPPING", "MAPPINGS_REJECTED", "LOW"⟩] }) := by
  unfold approve_mappings
  rw [h]
  rfl

/-- Reduction of `approve_mappings` without a stored suggestion. -/
theorem approve_missing (st tt : String) (d : Bool) (s : SessionState)
    (h : dictLookup s.suggested_mappings (mappingKey st tt) = none) :
    approve_mappings st tt d s =
      (Except.error ⟨noSuggestionMsg st tt, some st, some tt⟩, s) := by
  unfold approve_mappings
  rw [h]

/-- State effect of `approve_mappings`: the suggested and generated stores
are never touched; the approved store is unchanged or receives the stored
suggestion under the call's key. -/
theorem approve_effect (st tt : String) (d : Bool) (s : SessionState) :
    (approve_mappings st tt d s).2.suggested_mappings = s.suggested_mappings ∧
    (approve_mappings st tt d s).2.generated_sql = s.generated_sql ∧
    ((approve_mappings st tt d s).2.approved_mappings = s.approved_mappings ∨
     ∃ md, dictLookup s.suggested_mappings (mappingKey st tt) = some md ∧
       (approve_mappings st tt d s).2.approved_mappings =
         dictInsert s.approved_mappings (mappingKey st tt) md) := by
  rcases h : dictLookup s.suggested_mappings (mappingKey st tt) with _ | md
  · rw [approve_missing st tt d s h]
    exact ⟨rfl, rfl, Or.inl rfl⟩
  · cases d
    · rw [approve_found_false st tt s md h]
      exact ⟨rfl, rfl, Or.inl rfl⟩
    · rw [approve_found_true st tt s md h]
      exact ⟨rfl, rfl, Or.inr ⟨md, rfl, rfl⟩⟩

/-- State effect of `generate_transformation_sql`: only the generated-SQL
store can change, and only under the call's key. -/
theorem generate_effect (env : Env) (st tt : String) (s : SessionState) :
    (generate_transformation_sql env st tt s).2.suggested_mappings = s.suggested_mappings ∧
    (generate_transformation_sql env st tt s).2.approved_mappings = s.approved_mappings ∧
    ((generate_transformation_sql env st tt s).2.generated_sql = s.generated_sql ∨
     ∃ g, (generate_transformation_sql env st tt s).2.generated_sql =
       dictInsert s.generated_sql (mappingKey st tt) g) := by
  unfold generate_transformation_sql
  rcases dictLookup s.approved_mappings (mappingKey st tt) with _ | md
  · exact ⟨rfl, rfl, Or.inl rfl⟩
  dsimp only
  rcases md.mappings with _ | ⟨m0, rest⟩
  · exact ⟨rfl, rfl, Or.inl rfl⟩
  dsimp only
  refine ⟨?_, ?_, ?_⟩
  · split
    · rfl
    · rfl
  · split
    · rfl
    · rfl
  · split
    · left; rfl
    · right; exact ⟨_, rfl⟩

/-- `execute_transformation` never changes the state in the embedding. -/
theorem execute_snd (st tt : String) (d : Bool) (s : SessionState) :
    (execute_transformation st tt d s).2 = s := by
  unfold execute_transformation
  rcases dictLookup s.generated_sql (mappingKey st tt) with _ | g <;> rfl

theorem dictInsert_preserve {α : Type} (P : α → Prop) (l : List (String × α))
    (k : String) (v : α) (hl : ∀ k' r, dictLookup l k' = some r → P r) (hv : P v) :
    ∀ k' r, dictLookup (dictInsert l k v) k' = some r → P r := by
  intro k' r h
  rw [dictLookup_dictInsert] at h
  split_ifs at h with hk
  · exact (Option.some.inj h) ▸ hv
  · exact hl k' r h

theorem StoresNonEmpty_init : StoresNonEmpty initState := by
  constructor <;> intro k r h <;> simp [initState, dictLookup] at h

theorem StoresNonEmpty_step (s : SessionState) (o : Op) (h : StoresNonEmpty s) :
    StoresNonEmpty (applyOp s o) := by
  obtain ⟨h1, h2⟩ := h
  cases o with
  | setSource si => exact ⟨h1, h2⟩
  | setTarget si => exact ⟨h1, h2⟩
  | suggest st tt =>
    rcases suggest_cases st tt s with heq | ⟨r, hok⟩
    · dsimp only [applyOp]
      rw [heq]
      exact ⟨h1, h2⟩
    · obtain ⟨ss, ts, scl, tcl, -, -, -, -, -, htcl0, hr, hsug, happ, -⟩ :=
        suggest_ok_shape st tt s r _ hok
      constructor
      · dsimp only [applyOp]
        rw [hsug]
        apply dictInsert_preserve _ _ _ _ h1
        rw [hr, buildSuggestResult_mappings]
        simp [htcl0]
      · dsimp only [applyOp]
        rw [happ]
        exact h2
  | approve st tt d =>
    obtain ⟨hs, -, happ⟩ := approve_effect st tt d s
    constructor
    · dsimp only [applyOp]
      rw [hs]
      exact h1
    · dsimp only [applyOp]
      rcases happ with heq | ⟨md, hmd, hins⟩
      · rw [heq]
        exact h2
      · rw [hins]
        exact dictInsert_preserve _ _ _ _ h2 (h1 _ _ hmd)
  | generate env st tt =>
    obtain ⟨hs, ha, -⟩ := generate_effect env st tt s
    exact ⟨by dsimp only [applyOp]; rw [hs]; exact h1,
      by dsimp only [applyOp]; rw [ha]; exact h2⟩
  | execute st tt d =>
    dsimp only [applyOp]
    rw [execute_snd]
    exact ⟨h1, h2⟩

theorem StoresNonEmpty_run (ops : List Op) :
    ∀ s, StoresNonEmpty s → StoresNonEmpty (runOps ops s) := by
  induction ops with
  | nil => intro s h; exact h
  | cons o t ih => intro s h; exact ih _ (StoresNonEmpty_step s o h)

/-- Inversion of a successful `generate_transformation_sql` call. -/
theorem generate_ok_shape (env : Env) (st tt : String) (s : SessionState)
    (g : GeneratedSql) (s' : SessionState)
    (h : generate_transformation_sql env st tt s = (Except.ok g, s')) :
    ∃ md m0 rest,
      dictLookup s.approved_mappings (mappingKey st tt) = some md ∧
      md.mappings = m0 :: rest ∧
      g = ⟨st, tt, buildInsertSql env st tt md.average_confidence md.mappings,
        buildMergeSql env st tt md.mappings m0, md.mappings.length, md.mapping_count⟩ ∧
      s'.generated_sql = dictInsert s.generated_sql (mappingKey st tt) g ∧
      s'.approved_mappings = s.approved_mappings ∧
      s'.suggested_mappings = s.suggested_mappings := by
  unfold generate_transformation_sql at h
  rcases hl : dictLookup s.approved_mappings (mappingKey st tt) with _ | md <;>
    rw [hl] at h
  · exact absurd (congrArg Prod.fst h) (by simp)
  dsimp only at h
  rcases hm : md.mappings with _ | ⟨m0, rest⟩ <;> rw [hm] at h
  · exact absurd (congrArg Prod.fst h) (by simp)
  rcases hv : validate_sql_query (buildInsertSql env st tt md.average_confidence
      (m0 :: rest)) with _ | _ <;> rw [hv] at h <;> dsimp only at h
  case false => exact absurd (congrArg Prod.fst h) (by simp)
  rw [if_neg (by simp)] at h
  have h1 := congrArg Prod.fst h
  have h2 := congrArg Prod.snd h
  dsimp only at h1 h2
  have hg : g = ⟨st, tt, buildInsertSql env st tt md.average_confidence (m0 :: rest),
      buildMergeSql env st tt (m0 :: rest) m0, (m0 :: rest).length, md.mapping_count⟩ :=
    (Except.ok.inj h1).symm
  refine ⟨md, m0, rest, rfl, hm, by rw [hg, hm], ?_, ?_, ?_⟩
  · rw [← h2]
    dsimp only
    rw [← hg]
  · rw [← h2]
  · rw [← h2]

theorem mkMapping_eq_specMapping (source_cols : List Column) (tc : Column)
    (hne : ∀ col ∈ source_cols, col.name ≠ "") :
    mkMapping source_cols tc = specMapping source_cols tc := by
  rcases hb1 : (specSelect source_cols tc).1 with _ | n
  · have hd := specSelect_none source_cols tc hb1
    unfold mkMapping specMapping
    rw [bestMatch_eq_specSelect, hd]
    simp [strOptTruthy, round2_zero]
  · obtain ⟨sc, hsc, hname⟩ := specSelect_some_name source_cols tc n hb1
    have hnne : n ≠ "" := hname ▸ hne sc hsc
    have hnempty : n.isEmpty = false :=
      eq_false_of_ne_true (fun hemp => hnne ((String.isEmpty_iff n).mp hemp))
    unfold mkMapping specMapping
    rw [bestMatch_eq_specSelect]
    rcases hS : specSelect source_cols tc with ⟨b1, b2, b3⟩
    rw [hS] at hb1
    cases hb1
    simp [strOptTruthy, hnempty]


/-! ## Claim theorems -/

/-- C1: in `suggest_column_mappings` every candidate confidence comes from
the deterministic rule cascade evaluated in priority order (exact
case-insensitive equality 0.95 first, otherwise containment 0.75, otherwise
normalized similarity 0.60, otherwise not a candidate - never summed); per
target column the single best-scoring source column is kept with ties broken
by first-seen order in the source schema, and a target column with no
qualifying source column is unmapped with confidence 0 and no transform. -/
theorem C1_rule_cascade_selection :
    (∀ source_name target_name : String,
        strLower source_name = strLower target_name →
        ruleConfidence source_name target_name = some (95/100)) ∧
    (∀ source_name target_name : String,
        ruleConfidence source_name target_name = some (95/100) ∨
        ruleConfidence source_name target_name = some (75/100) ∨
        ruleConfidence source_name target_name = some (60/100) ∨
        ruleConfidence source_name target_name = none) ∧
    (∀ (source_cols : List Column) (tc : Column),
        bestMatch source_cols tc = specSelect source_cols tc) ∧
    (∀ (source_cols : List Column) (tc : Column),
        (∀ col ∈ source_cols, col.name ≠ "") →
        mkMapping source_cols tc = specMapping source_cols tc) := by
  refine ⟨?_, ?_, bestMatch_eq_specSelect, mkMapping_eq_specMapping⟩
  · intro a b h
    unfold ruleConfidence
    simp [h]
  · intro a b
    unfold ruleConfidence
    split_ifs <;> simp

/-- Witness for C1 at concrete inputs. -/
theorem C1_rule_cascade_selection_witness :
    ruleConfidence "Amount" "amount" = some (95/100) ∧
    mkMapping [mkCol "cust_id" "INT64"] (mkCol "customer_id" "INT64") =
      specMapping [mkCol "cust_id" "INT64"] (mkCol "customer_id" "INT64") :=
  ⟨C1_rule_cascade_selection.1 "Amount" "amount" (by decide),
   C1_rule_cascade_selection.2.2.2 [mkCol "cust_id" "INT64"]
     (mkCol "customer_id" "INT64") (by decide)⟩

/-- C4: a candidate whose declared source type differs from the target type
has exactly 0.1 subtracted from its cascade confidence and the cast template
attached; an exact case-insensitive match scores 0.95 with matching types and
0.85 with differing types; no candidate confidence, and no stored mapping
confidence, is ever negative. -/
theorem C4_cast_penalty :
    (∀ (sc tc : Column) (c : ℚ), ruleConfidence sc.name tc.name = some c →
        sc.type ≠ tc.type →
        candScore sc tc = some (c - 1/10, some (castTemplate tc.type))) ∧
    (∀ sc tc : Column, strLower sc.name = strLower tc.name →
        candScore sc tc = some (if sc.type = tc.type then ((95:ℚ)/100, none)
          else ((85:ℚ)/100, some (castTemplate tc.type)))) ∧
    (∀ (sc tc : Column) (c : ℚ) (t : Option String),
        candScore sc tc = some (c, t) → 0 < c) ∧
    (∀ (source_cols : List Column) (tc : Column),
        0 ≤ (mkMapping source_cols tc).confidence) := by
  refine ⟨?_, ?_, ?_, ?_⟩
  · intro sc tc c h hty
    unfold candScore
    rw [h]
    simp only [Option.map_some']
    rw [if_pos (bne_iff_ne.mpr hty)]
  · intro sc tc h
    have h95 : ruleConfidence sc.name tc.name = some (95/100) := by
      unfold ruleConfidence
      simp [h]
    unfold candScore
    rw [h95]
    simp only [Option.map_some']
    by_cases hty : sc.type = tc.type
    · rw [if_neg (by simp [hty]), if_pos hty]
    · rw [if_pos (bne_iff_ne.mpr hty), if_neg hty]
      norm_num
  · intro sc tc c t h
    have := (candScore_bounds sc tc c t h).1
    linarith
  · intro source_cols tc
    have h0 : 0 ≤ (bestMatch source_cols tc).2.1 := by
      rw [bestMatch_eq_selectRec]
      exact selectRec_conf_nonneg tc source_cols
    exact round2_nonneg h0

/-- Witness for C4 at concrete inputs. -/
theorem C4_cast_penalty_witness :
    candScore (mkCol "a" "X") (mkCol "a" "Y") =
      some (95/100 - 1/10, some (castTemplate "Y")) ∧
    candScore (mkCol "amount" "FLOAT64") (mkCol "amount" "NUMERIC") =
      some ((85:ℚ)/100, some (castTemplate "NUMERIC")) ∧
    (0:ℚ) < 3/5 :=
  ⟨C4_cast_penalty.1 (mkCol "a" "X") (mkCol "a" "Y") (95/100)
     (by with_unfolding_all rfl) (by decide),
   by
    have h := C4_cast_penalty.2.1 (mkCol "amount" "FLOAT64") (mkCol "amount" "NUMERIC")
      (by decide)
    rw [if_neg (by decide)] at h
    exact h,
   C4_cast_penalty.2.2.1 (mkCol "cust_id" "INT64") (mkCol "customer_id" "INT64")
     (3/5) none (by with_unfolding_all rfl)⟩

/-- C2 (counterexample): on the end-to-end scenario the code leaves
`customer_name` unmapped with confidence 0 - `cust_name` does not qualify
under any cascade rule for `customer_name` because `_name` is not in the
fixed suffix list and `"cust_name"` is not a substring of
`"customer_name"` - refuting the claimed 0.60 mapping of `customer_name`
to `cust_name`. -/
theorem C2_scenario_counterexample :
    (suggest_column_mappings "cust_src" "customer" custState).1 =
      Except.ok custSuggestExpected ∧
    custSuggestExpected.mappings[1]? =
      some ⟨"customer_name", "STRING", none, none, 0, none, "unmapped"⟩ ∧
    ¬ ((custSuggestExpected.mappings[1]?).map (·.source_column) =
        some (some "cust_name")) ∧
    similar_names "cust_name" "customer_name" = false := by
  refine ⟨by with_unfolding_all rfl, by with_unfolding_all rfl, by decide, by decide⟩

/-- C2 (amended): on the end-to-end scenario `customer_id` maps to `cust_id`
with confidence 0.60 and no cast, while both `customer_name` and
`customer_status` are unmapped with confidence 0 and status "unmapped";
average_confidence is 0.60 (over the single mapped column) and the generated
INSERT emits `NULL AS customer_name` and `NULL AS customer_status`. -/
theorem C2_scenario_amended :
    (suggest_column_mappings "cust_src" "customer" custState).1 =
      Except.ok custSuggestExpected ∧
    custSuggestExpected.average_confidence = 3/5 ∧
    custSuggestExpected.mapping_count = 1 ∧
    custSuggestExpected.unmapped_count = 2 ∧
    custSuggestExpected.mappings[0]? =
      some ⟨"customer_id", "INT64", some "cust_id", some "INT64", 3/5, none, "suggested"⟩ ∧
    custSuggestExpected.mappings[1]? =
      some ⟨"customer_name", "STRING", none, none, 0, none, "unmapped"⟩ ∧
    custSuggestExpected.mappings[2]? =
      some ⟨"customer_status", "STRING", none, none, 0, none, "unmapped"⟩ ∧
    strIn "NULL AS customer_name" custInsertSql = true ∧
    strIn "NULL AS customer_status" custInsertSql = true ∧
    strIn "cust_id AS customer_id" custInsertSql = true := by
  refine ⟨by with_unfolding_all rfl, by with_unfolding_all rfl, rfl, rfl,
    by with_unfolding_all rfl, by with_unfolding_all rfl, by with_unfolding_all rfl,
    by with_unfolding_all rfl, by with_unfolding_all rfl, by with_unfolding_all rfl⟩

/-- C3 (counterexample): the code removes prefix tokens anywhere in the name,
not only as leading prefixes: `"xsrc_a"` normalizes to `"xa"` under
`_similar_names` (0.60 rule fires), while the claim's prefix-stripping
normalization leaves `"xsrc_a"` unchanged and reports no similarity. -/
theorem C3_similarity_counterexample :
    similar_names "xsrc_a" "xa" = true ∧
    ruleConfidence "xsrc_a" "xa" = some (3/5) ∧
    claimSimilar "xsrc_a" "xa" = false := by
  refine ⟨by decide, by with_unfolding_all rfl, by decide⟩

/-- C3 (amended): the 0.60 similarity rule holds for a name pair exactly
when, after removing every occurrence of each prefix token src_, tgt_, dim_,
fact_, stg_ (in listed order, one left-to-right scan per token) from both
lowercased names, and then iteratively stripping suffixes from the ordered
list _id, _key, _code, _date, _amt, _amount (each stripped from both names
whenever both currently end with it), the normalized names are equal or one
occurs contiguously inside the other. -/
theorem C3_similarity_amended (name1 name2 : String) :
    similar_names name1 name2 = true ↔
      ((stripShared (stripTokens name1, stripTokens name2)).1 =
        (stripShared (stripTokens name1, stripTokens name2)).2 ∨
       (stripShared (stripTokens name1, stripTokens name2)).1.data <:+:
        (stripShared (stripTokens name1, stripTokens name2)).2.data ∨
       (stripShared (stripTokens name1, stripTokens name2)).2.data <:+:
        (stripShared (stripTokens name1, stripTokens name2)).1.data) := by
  unfold similar_names
  simp only [Bool.or_eq_true, beq_iff_eq, strIn_iff]
  rw [or_assoc]

/-- C5 (counterexample): with mapped confidences 0.95, 0.95 and 0.60 the
returned average_confidence is the two-decimal rounding 0.83, not the exact
quotient 5/6 claimed by "is the sum of the confidences divided by
max(mapped_count, 1)". -/
theorem C5_average_counterexample :
    ((suggest_column_mappings "s" "t" avgState).1.map (·.average_confidence)) =
      Except.ok (83/100) ∧
    ((suggest_column_mappings "s" "t" avgState).1.map
      (fun r => (mappedConfs r.mappings).sum / (max r.mapping_count 1 : ℚ))) =
      Except.ok (5/6) ∧
    (83/100 : ℚ) ≠ 5/6 := by
  refine ⟨by with_unfolding_all rfl, by with_unfolding_all rfl, by norm_num⟩

/-- C5 (amended): for every successful call, average_confidence equals the
two-decimal rounding of the mapped-confidence sum divided by
max(mapped_count, 1); it lies in [0, 1], is computed only over mapped
columns, never divides by zero, and is 0 when mapped_count = 0. -/
theorem C5_average_amended (st tt : String) (s : SessionState) (r : SuggestResult)
    (s' : SessionState)
    (h : suggest_column_mappings st tt s = (Except.ok r, s')) :
    r.mapping_count = (mappedOf r.mappings).length ∧
    r.average_confidence =
      round2 ((mappedConfs r.mappings).sum / (max r.mapping_count 1 : ℚ)) ∧
    0 ≤ r.average_confidence ∧ r.average_confidence ≤ 1 ∧
    (r.mapping_count = 0 → r.average_confidence = 0) := by
  obtain ⟨ss, ts, scl, tcl, -, -, -, -, -, -, hr, -, -, -⟩ :=
    suggest_ok_shape st tt s r s' h
  subst hr
  have hmem : ∀ x ∈ mappedConfs (tcl.map (mkMapping scl)), 0 ≤ x ∧ x ≤ 1 := by
    intro x hx
    unfold mappedConfs at hx
    obtain ⟨m, hm, hxm⟩ := List.mem_map.mp hx
    have hm' : m ∈ tcl.map (mkMapping scl) := List.mem_of_mem_filter hm
    obtain ⟨tc0, -, htc0⟩ := List.mem_map.mp hm'
    subst htc0
    have h0 : 0 ≤ (bestMatch scl tc0).2.1 := by
      rw [bestMatch_eq_selectRec]
      exact selectRec_conf_nonneg tc0 scl
    have h1 : (bestMatch scl tc0).2.1 ≤ 19/20 := by
      rw [bestMatch_eq_selectRec]
      exact selectRec_conf_le tc0 scl
    constructor
    · rw [← hxm]
      exact round2_nonneg h0
    · rw [← hxm]
      exact round2_le_one (le_trans h1 (by norm_num))
  have hS0 : 0 ≤ (mappedConfs (tcl.map (mkMapping scl))).sum :=
    List.sum_nonneg (fun x hx => (hmem x hx).1)
  have hS1 : (mappedConfs (tcl.map (mkMapping scl))).sum ≤
      ((mappedConfs (tcl.map (mkMapping scl))).length : ℚ) := by
    calc (mappedConfs (tcl.map (mkMapping scl))).sum
        ≤ (mappedConfs (tcl.map (mkMapping scl))).length • (1:ℚ) :=
          List.sum_le_card_nsmul _ 1 (fun x hx => (hmem x hx).2)
      _ = ((mappedConfs (tcl.map (mkMapping scl))).length : ℚ) := by simp
  have hlen : (mappedConfs (tcl.map (mkMapping scl))).length =
      (mappedOf (tcl.map (mkMapping scl))).length := List.length_map _ _
  have hden : (0:ℚ) < max ((mappedOf (tcl.map (mkMapping scl))).length : ℚ) 1 :=
    lt_of_lt_of_le one_pos (le_max_right _ 1)
  refine ⟨rfl, rfl, ?_, ?_, ?_⟩
  · exact round2_nonneg (div_nonneg hS0 hden.le)
  · apply round2_le_one
    rw [div_le_one hden]
    calc (mappedConfs (tcl.map (mkMapping scl))).sum
        ≤ ((mappedConfs (tcl.map (mkMapping scl))).length : ℚ) := hS1
      _ = ((mappedOf (tcl.map (mkMapping scl))).length : ℚ) := by rw [hlen]
      _ ≤ max ((mappedOf (tcl.map (mkMapping scl))).length : ℚ) 1 := le_max_left _ 1
  · intro hz
    have hz' : (mappedOf (tcl.map (mkMapping scl))).length = 0 := hz
    have hnil : mappedOf (tcl.map (mkMapping scl)) = [] := List.length_eq_zero.mp hz'
    show round2 ((mappedConfs (tcl.map (mkMapping scl))).sum /
      (max (mappedOf (tcl.map (mkMapping scl))).length 1 : ℚ)) = 0
    unfold mappedConfs
    rw [hnil]
    simp [round2_zero]

/-- Witness for C5 (amended) on the end-to-end scenario. -/
theorem C5_average_amended_witness :
    custSuggestExpected.mapping_count = (mappedOf custSuggestExpected.mappings).length ∧
    custSuggestExpected.average_confidence =
      round2 ((mappedConfs custSuggestExpected.mappings).sum /
        (max custSuggestExpected.mapping_count 1 : ℚ)) ∧
    0 ≤ custSuggestExpected.average_confidence ∧
    custSuggestExpected.average_confidence ≤ 1 ∧
    (custSuggestExpected.mapping_count = 0 →
      custSuggestExpected.average_confidence = 0) :=
  C5_average_amended "cust_src" "customer" custState custSuggestExpected custSuggested
    (by with_unfolding_all rfl)

/-- C6 (counterexample): in the MERGE-key scenario the first target column
`status` is unmapped while `xx` is the first mapped target column, yet the
generated MERGE is keyed `ON target.status = source.status` - the ON key is
`mappings[0]`, not the first mapped target column as claimed. -/
theorem C6_merge_key_counterexample :
    strIn "ON target.status = source.status" mergeGenerated.merge_sql = true ∧
    ((dictLookup mergeFinalState.approved_mappings (mappingKey "ord_src" "ord_tgt")).map
      (fun md => (md.mappings.find? (fun m => strOptTruthy m.source_column)).map
        (·.target_column))) = some (some "xx") ∧
    strIn "ON target.xx" mergeGenerated.merge_sql = false := by
  refine ⟨by with_unfolding_all rfl, by with_unfolding_all rfl,
    by with_unfolding_all rfl⟩

/-- C6 (amended): for every approved mapping set, the generated SQL emits, in
the set's target-column order, the expression `<transform with source
substituted, or bare source column> AS <target>` for each mapped column and
`NULL AS <target>` for each unmapped column; the same select clause appears
in both the INSERT...SELECT and MERGE variants; and the MERGE ON key is the
target column of the mapping set's first candidate, whether or not that
candidate is mapped. -/
theorem C6_sql_emission_amended (env : Env) (st tt : String) (s : SessionState)
    (md : SuggestResult) (m0 : Mapping) (rest : List Mapping) (g : GeneratedSql)
    (s' : SessionState)
    (h1 : dictLookup s.approved_mappings (mappingKey st tt) = some md)
    (h2 : md.mappings = m0 :: rest)
    (h3 : generate_transformation_sql env st tt s = (Except.ok g, s')) :
    buildSelectColumns md.mappings = md.mappings.map (fun m =>
      if strOptTruthy m.source_column then
        if strOptTruthy m.transformation then
          "  " ++ strReplace (m.transformation.getD "") "\x7bsource\x7d"
              (m.source_column.getD "") ++ " AS " ++ m.target_column
        else
          "  " ++ m.source_column.getD "" ++ " AS " ++ m.target_column
      else
        "  NULL AS " ++ m.target_column) ∧
    g.insert_sql = buildInsertSql env st tt md.average_confidence md.mappings ∧
    g.merge_sql = buildMergeSql env st tt md.mappings m0 ∧
    (String.intercalate ",\n" (buildSelectColumns md.mappings)).data <:+:
      g.insert_sql.data ∧
    (String.intercalate ",\n" (buildSelectColumns md.mappings)).data <:+:
      g.merge_sql.data ∧
    (mergeOnClause m0).data <:+: g.merge_sql.data := by
  obtain ⟨md', m0', rest', hl, hm, hg, -, -, -⟩ := generate_ok_shape env st tt s g s' h3
  rw [h1] at hl
  obtain rfl : md = md' := Option.some.inj hl
  rw [h2] at hm
  obtain ⟨rfl, rfl⟩ : m0 = m0' ∧ rest = rest' := by
    have := List.cons.inj hm
    exact ⟨this.1, this.2⟩
  refine ⟨buildSelectColumns_eq_map md.mappings, by rw [hg], by rw [hg], ?_, ?_, ?_⟩
  · rw [hg]
    show _ <:+: (buildInsertSql env st tt md.average_confidence md.mappings).data
    unfold buildInsertSql
    exact infix_str_append_right _ _ _ (infix_str_append_left _ _ _ (infix_str_refl _))
  · rw [hg]
    show _ <:+: (buildMergeSql env st tt md.mappings m0).data
    unfold buildMergeSql
    exact infix_str_append_right _ _ _ (infix_str_append_right _ _ _
      (infix_str_append_right _ _ _ (infix_str_append_left _ _ _ (infix_str_refl _))))
  · rw [hg]
    show _ <:+: (buildMergeSql env st tt md.mappings m0).data
    unfold buildMergeSql
    exact infix_str_append_right _ _ _ (infix_str_append_left _ _ _ (infix_str_refl _))

/-- Witness for C6 (amended) on the MERGE-key scenario. -/
theorem C6_sql_emission_amended_witness :
    (mergeOnClause ⟨"status", "STRING", none, none, 0, none, "unmapped"⟩).data <:+:
      mergeGenerated.merge_sql.data :=
  (C6_sql_emission_amended theEnv "ord_src" "ord_tgt" mergeApprovedState
    mergeSuggestExpected ⟨"status", "STRING", none, none, 0, none, "unmapped"⟩
    [⟨"xx", "INT64", some "xx", some "INT64", 19/20, none, "suggested"⟩]
    mergeGenerated mergeFinalState (by with_unfolding_all rfl)
    (by with_unfolding_all rfl) (by with_unfolding_all rfl)).2.2.2.2.2

/-- C7 (counterexample): the stores are keyed by the concatenated string
`source_to_target`, so the two distinct table pairs ("a", "b_to_c") and
("a_to_b", "c") share the key "a_to_b_to_c": suggesting for the first and
then for the second overwrites the first pair's stored entry. -/
theorem C7_key_collision_counterexample :
    mappingKey "a" "b_to_c" = mappingKey "a_to_b" "c" ∧
    (("a", "b_to_c") : String × String) ≠ ("a_to_b", "c") ∧
    ((dictLookup aliasState1.suggested_mappings (mappingKey "a" "b_to_c")).map
      (·.source_table)) = some "a" ∧
    ((dictLookup aliasState2.suggested_mappings (mappingKey "a" "b_to_c")).map
      (·.source_table)) = some "a_to_b" := by
  refine ⟨rfl, by decide, by with_unfolding_all rfl, by with_unfolding_all rfl⟩

/-- C7 (amended): entries are identified by the concatenated string key
`source_to_target`; whenever two pairs' concatenated keys differ, storing a
suggested, approved or generated-SQL entry for one pair never overwrites or
aliases the stored entry for the other in the corresponding session-state
map (distinct pairs with equal concatenations do alias, as the
counterexample shows). -/
theorem C7_distinct_keys_amended (env : Env) (st tt su tu : String) (d dry : Bool)
    (s : SessionState) (hk : mappingKey st tt ≠ mappingKey su tu) :
    dictLookup (suggest_column_mappings su tu s).2.suggested_mappings
      (mappingKey st tt) = dictLookup s.suggested_mappings (mappingKey st tt) ∧
    dictLookup (approve_mappings su tu d s).2.approved_mappings
      (mappingKey st tt) = dictLookup s.approved_mappings (mappingKey st tt) ∧
    dictLookup (generate_transformation_sql env su tu s).2.generated_sql
      (mappingKey st tt) = dictLookup s.generated_sql (mappingKey st tt) ∧
    dictLookup (execute_transformation su tu dry s).2.generated_sql
      (mappingKey st tt) = dictLookup s.generated_sql (mappingKey st tt) := by
  refine ⟨?_, ?_, ?_, ?_⟩
  · rcases suggest_cases su tu s with heq | ⟨r, hok⟩
    · rw [heq]
    · obtain ⟨ss, ts, scl, tcl, -, -, -, -, -, -, -, hsug, -, -⟩ :=
        suggest_ok_shape su tu s r _ hok
      rw [hsug, dictLookup_dictInsert, if_neg hk]
  · obtain ⟨-, -, happ⟩ := approve_effect su tu d s
    rcases happ with heq | ⟨md, -, hins⟩
    · rw [heq]
    · rw [hins, dictLookup_dictInsert, if_neg hk]
  · obtain ⟨-, -, hgen⟩ := generate_effect env su tu s
    rcases hgen with heq | ⟨g, hins⟩
    · rw [heq]
    · rw [hins, dictLookup_dictInsert, if_neg hk]
  · rw [execute_snd]

/-- Witness for C7 (amended) at concrete distinct keys. -/
theorem C7_distinct_keys_amended_witness :
    dictLookup (suggest_column_mappings "u" "v" initState).2.suggested_mappings
      (mappingKey "x" "y") =
      dictLookup initState.suggested_mappings (mappingKey "x" "y") :=
  (C7_distinct_keys_amended theEnv "x" "y" "u" "v" true true initState (by decide)).1

/-- C8 (counterexample): the table-not-found error dictionary of
`suggest_column_mappings` does not carry the table names as claimed: for a
missing source table it has no `source_table`/`target_table` keys and its
message nowhere mentions the target table (here "zeta"). -/
theorem C8_error_context_counterexample :
    (suggest_column_mappings "alpha" "zeta" custState).1 =
      Except.error ⟨"Source table \x27alpha\x27 not found in schema.", none, none⟩ ∧
    strIn "zeta" "Source table \x27alpha\x27 not found in schema." = false := by
  refine ⟨by with_unfolding_all rfl, by decide⟩

/-- C8 (amended): every stage reports its precondition failure as a tagged
error value and leaves the session state unchanged, never raising: the
missing-snapshot, no-suggestion, not-approved and no-generated-SQL errors
carry both table names, while the table-not-found errors carry only the
missing table's name inside the message. -/
theorem C8_precondition_errors_amended (env : Env) (st tt : String) (d dry : Bool)
    (s : SessionState) :
    (s.source_schema = none ∨ s.target_schema = none →
      suggest_column_mappings st tt s =
        (Except.error ⟨schemaMissingMsg, some st, some tt⟩, s)) ∧
    (∀ ss ts : SchemaInfo, s.source_schema = some ss → s.target_schema = some ts →
      colsFalsy (findTableCols ss st) = true →
      suggest_column_mappings st tt s =
        (Except.error ⟨tableMissingMsg "Source" st, none, none⟩, s)) ∧
    (∀ ss ts : SchemaInfo, s.source_schema = some ss → s.target_schema = some ts →
      colsFalsy (findTableCols ss st) = false →
      colsFalsy (findTableCols ts tt) = true →
      suggest_column_mappings st tt s =
        (Except.error ⟨tableMissingMsg "Target" tt, none, none⟩, s)) ∧
    (dictLookup s.suggested_mappings (mappingKey st tt) = none →
      approve_mappings st tt d s =
        (Except.error ⟨noSuggestionMsg st tt, some st, some tt⟩, s)) ∧
    (dictLookup s.approved_mappings (mappingKey st tt) = none →
      generate_transformation_sql env st tt s =
        (Except.error (GenErr.notApproved st tt), s)) ∧
    (dictLookup s.generated_sql (mappingKey st tt) = none →
      execute_transformation st tt dry s =
        (Except.error ⟨"No generated SQL found for " ++ st ++ " -> " ++ tt ++
          ". Run generate_transformation_sql first.", some st, some tt⟩, s)) := by
  refine ⟨?_, ?_, ?_, approve_missing st tt d s, ?_, ?_⟩
  · intro hor
    unfold suggest_column_mappings
    rcases hss : s.source_schema with _ | ss
    · rfl
    · rcases hor with h1 | h2
      · rw [hss] at h1; cases h1
      · rw [h2]
  · intro ss ts h1 h2 h3
    unfold suggest_column_mappings
    rw [h1, h2]
    dsimp only
    rw [h3, if_pos rfl]
  · intro ss ts h1 h2 h3 h4
    unfold suggest_column_mappings
    rw [h1, h2]
    dsimp only
    rw [h3, if_neg (by simp), h4, if_pos rfl]
  · intro h
    unfold generate_transformation_sql
    rw [h]
  · intro h
    unfold execute_transformation
    rw [h]

/-- Witness for C8 (amended): each precondition failure exercised on a
concrete state. -/
theorem C8_precondition_errors_amended_witness :
    suggest_column_mappings "x" "y" initState =
      (Except.error ⟨schemaMissingMsg, some "x", some "y"⟩, initState) ∧
    suggest_column_mappings "alpha" "zeta" custState =
      (Except.error ⟨tableMissingMsg "Source" "alpha", none, none⟩, custState) ∧
    suggest_column_mappings "cust_src" "zeta" custState =
      (Except.error ⟨tableMissingMsg "Target" "zeta", none, none⟩, custState) ∧
    approve_mappings "x" "y" true initState =
      (Except.error ⟨noSuggestionMsg "x" "y", some "x", some "y"⟩, initState) ∧
    generate_transformation_sql theEnv "x" "y" initState =
      (Except.error (GenErr.notApproved "x" "y"), initState) ∧
    execute_transformation "x" "y" true initState =
      (Except.error ⟨"No generated SQL found for " ++ "x" ++ " -> " ++ "y" ++
        ". Run generate_transformation_sql first.", some "x", some "y"⟩, initState) :=
  ⟨(C8_precondition_errors_amended theEnv "x" "y" true true initState).1 (Or.inl rfl),
   (C8_precondition_errors_amended theEnv "alpha" "zeta" true true custState).2.1
     custSourceSchema custTargetSchema rfl rfl (by decide),
   (C8_precondition_errors_amended theEnv "cust_src" "zeta" true true custState).2.2.1
     custSourceSchema custTargetSchema rfl rfl (by decide) (by decide),
   (C8_precondition_errors_amended theEnv "x" "y" true true initState).2.2.2.1 rfl,
   (C8_precondition_errors_amended theEnv "x" "y" true true initState).2.2.2.2.1 rfl,
   (C8_precondition_errors_amended theEnv "x" "y" true true initState).2.2.2.2.2 rfl⟩

/-- C9: approval is idempotent and rejection is non-mutating: approving the
same table pair twice stores the same approved mapping set (the second call
overwrites with an equal value), each call appends exactly one audit event,
and a rejected approval creates no approved-store entry. -/
theorem C9_approval_idempotent (st tt : String) (s : SessionState)
    (md : SuggestResult)
    (h : dictLookup s.suggested_mappings (mappingKey st tt) = some md) :
    dictLookup (approve_mappings st tt true s).2.approved_mappings
      (mappingKey st tt) = some md ∧
    dictLookup (approve_mappings st tt true
        (approve_mappings st tt true s).2).2.approved_mappings
      (mappingKey st tt) = some md ∧
    (approve_mappings st tt true s).2.suggested_mappings = s.suggested_mappings ∧
    (approve_mappings st tt true s).2.audit_log =
      s.audit_log ++ [⟨"MAPPING", "MAPPINGS_APPROVED", "LOW"⟩] ∧
    (approve_mappings st tt true (approve_mappings st tt true s).2).2.audit_log =
      (approve_mappings st tt true s).2.audit_log ++
        [⟨"MAPPING", "MAPPINGS_APPROVED", "LOW"⟩] ∧
    (approve_mappings st tt false s).2.approved_mappings = s.approved_mappings ∧
    (approve_mappings st tt false s).2.audit_log =
      s.audit_log ++ [⟨"MAPPING", "MAPPINGS_REJECTED", "LOW"⟩] := by
  have e1 := approve_found_true st tt s md h
  have h2 : dictLookup (approve_mappings st tt true s).2.suggested_mappings
      (mappingKey st tt) = some md := by rw [e1]; exact h
  have e2 := approve_found_true st tt (approve_mappings st tt true s).2 md h2
  refine ⟨?_, ?_, ?_, ?_, ?_, ?_, ?_⟩
  · rw [e1]
    dsimp only
    rw [dictLookup_dictInsert, if_pos rfl]
  · rw [e2]
    dsimp only
    rw [dictLookup_dictInsert, if_pos rfl]
  · rw [e1]
  · rw [e1]
  · rw [e2]
  · rw [approve_found_false st tt s md h]
  · rw [approve_found_false st tt s md h]

/-- Witness for C9 on the end-to-end scenario. -/
theorem C9_approval_idempotent_witness :
    dictLookup (approve_mappings "cust_src" "customer" true
        custSuggested).2.approved_mappings
      (mappingKey "cust_src" "customer") = some custSuggestExpected :=
  (C9_approval_idempotent "cust_src" "customer" custSuggested custSuggestExpected
    (by with_unfolding_all rfl)).1

/-- C10: every mapping set stored by `suggest_column_mappings` has exactly
one candidate per (deduplicated) target column and is therefore non-empty (a
found table with an empty column dict is rejected as not found first); every
approved mapping set in any reachable session state is non-empty, so the
`mappings[0]` access building the MERGE key never raises the modelled
IndexError. -/
theorem C10_merge_key_safety :
    (∀ (st tt : String) (s : SessionState) (r : SuggestResult) (s' : SessionState),
      suggest_column_mappings st tt s = (Except.ok r, s') →
      r.mappings ≠ [] ∧
      ∃ (ts : SchemaInfo) (tbl : TableSchema),
        s.target_schema = some ts ∧
        ts.tables.find? (fun t => t.table_name == tt) = some tbl ∧
        r.mappings.map (·.target_column) = (colsDict tbl.columns).map (·.name)) ∧
    (∀ (ops : List Op) (k : String) (md : SuggestResult),
      dictLookup (runOps ops initState).approved_mappings k = some md →
      md.mappings ≠ []) ∧
    (∀ (ops : List Op) (env : Env) (st tt : String),
      (generate_transformation_sql env st tt (runOps ops initState)).1 ≠
        Except.error GenErr.indexError) := by
  refine ⟨?_, ?_, ?_⟩
  · intro st tt s r s' h
    obtain ⟨ss, ts, scl, tcl, -, hts, -, -, htcl, htcl0, hr, -, -, -⟩ :=
      suggest_ok_shape st tt s r s' h
    unfold findTableCols at htcl
    obtain ⟨tbl, hfind, htblcols⟩ := Option.map_eq_some'.mp htcl
    constructor
    · rw [hr, buildSuggestResult_mappings]
      simp [htcl0]
    · refine ⟨ts, tbl, hts, hfind, ?_⟩
      rw [hr, buildSuggestResult_mappings, List.map_map, ← htblcols]
      rfl
  · intro ops k md h
    exact (StoresNonEmpty_run ops initState StoresNonEmpty_init).2 k md h
  · intro ops env st tt
    have hinv := StoresNonEmpty_run ops initState StoresNonEmpty_init
    rcases hl : dictLookup (runOps ops initState).approved_mappings (mappingKey st tt)
      with _ | md
    · unfold generate_transformation_sql
      rw [hl]
      simp
    · have hne := hinv.2 _ _ hl
      rcases hm : md.mappings with _ | ⟨m0, rest⟩
      · exact absurd hm hne
      · unfold generate_transformation_sql
        rw [hl]
        dsimp only
        rw [hm]
        dsimp only
        split
        · simp
        · simp

/-- Witness for C10 on the two concrete scenarios. -/
theorem C10_merge_key_safety_witness :
    custSuggestExpected.mappings ≠ [] ∧
    mergeSuggestExpected.mappings ≠ [] :=
  ⟨(C10_merge_key_safety.1 "cust_src" "customer" custState custSuggestExpected
      custSuggested (by with_unfolding_all rfl)).1,
   C10_merge_key_safety.2.1
     [Op.setSource mergeSourceSchema, Op.setTarget mergeTargetSchema,
      Op.suggest "ord_src" "ord_tgt", Op.approve "ord_src" "ord_tgt" true]
     (mappingKey "ord_src" "ord_tgt") mergeSuggestExpected
     (by with_unfolding_all rfl)⟩
